import Mathlib

/-!
# OOGL window event translation (X11 back end)

A shallow embedding of `src/GL/Window/Window_X11.cpp`: the translator
`Window::WindowEvent`, the poll operation `Window::GetEvent`, and the thin
mutators `SetPos`, `SetSize`, `SetTitle`, `SetVisible`, `Close`.

Conventions of the embedding.

* The member variables of `GL::Window` become the fields of the structure
  `Window`; a member function becomes a function taking the window and
  returning the new window (and the returned value, when there is one).
* `std::queue<Event> events` is a `List Event`: `front` is the head of the list,
  `push` appends at the end, `back` is the last element, `pop` drops the head.
* The local `Event ev` of `WindowEvent`, created with `ev.Type = 0` and pushed
  only when `ev.Type != 0`, is an `Option Event`: `none` is `Type == 0`.
* `uint` is a `Nat` below `2^32`, `int` an `Int`; the conversion `(uint)i` is
  `toUint`.
* The Xlib connection is a record of the events that wait on it and of the
  requests that were sent through it.
-/

namespace OOGL

/-! ## Xlib: constants of `X11/X.h`, event records, connection -/

def KeyPress : Int := 2
def KeyRelease : Int := 3
def ButtonPress : Int := 4
def ButtonRelease : Int := 5
def MotionNotify : Int := 6
def FocusIn : Int := 9
def FocusOut : Int := 10
def ConfigureNotify : Int := 22
def ClientMessage : Int := 33

def Button1 : Nat := 1
def Button2 : Nat := 2
def Button3 : Nat := 3
def Button4 : Nat := 4
def Button5 : Nat := 5

/-- The fields of `XClientMessageEvent` that the translator reads:
`format` and `data.l[0]`. -/
structure XClientMessageEvent where
  format : Int
  data_l0 : Int
deriving DecidableEq, Repr, Inhabited

/-- The fields of `XConfigureEvent` that the translator reads (all `int`). -/
structure XConfigureEvent where
  x : Int
  y : Int
  width : Int
  height : Int
deriving DecidableEq, Repr, Inhabited

/-- The fields of `XButtonEvent` that the translator reads: `int x, y` and
`unsigned int button`. -/
structure XButtonEvent where
  x : Int
  y : Int
  button : Nat
deriving DecidableEq, Repr, Inhabited

/-- The fields of `XMotionEvent` that the translator reads. -/
structure XMotionEvent where
  x : Int
  y : Int
deriving DecidableEq, Repr, Inhabited

/-- The union `XEvent`, flattened: the discriminant `type`, the window of
`xany`, and one record for each member the translator reads. The translator
reads only the member that goes with `type`. -/
structure XEvent where
  type : Int
  xany_window : Nat
  xclient : XClientMessageEvent
  xconfigure : XConfigureEvent
  xbutton : XButtonEvent
  xmotion : XMotionEvent
deriving DecidableEq, Repr, Inhabited

/-- A request sent to the X server through the connection. -/
inductive XRequest where
  | MoveWindow (window : Nat) (x y : Int)
  | ResizeWindow (window : Nat) (width height : Nat)
  | StoreName (window : Nat) (title : String)
  | MapWindow (window : Nat)
  | UnmapWindow (window : Nat)
  | DestroyWindow (window : Nat)
  | Flush
deriving DecidableEq, Repr

/-- The connection `Display*`: the events buffered on it, oldest first, for all
windows, and the requests issued so far, oldest first. -/
structure Display where
  pending : List XEvent
  requests : List XRequest
deriving DecidableEq, Repr

def Display.send (d : Display) (r : XRequest) : Display :=
  { d with requests := d.requests ++ [r] }

def XMoveWindow (d : Display) (window : Nat) (x y : Int) : Display :=
  d.send (XRequest.MoveWindow window x y)

def XResizeWindow (d : Display) (window : Nat) (width height : Nat) : Display :=
  d.send (XRequest.ResizeWindow window width height)

def XStoreName (d : Display) (window : Nat) (title : String) : Display :=
  d.send (XRequest.StoreName window title)

def XMapWindow (d : Display) (window : Nat) : Display :=
  d.send (XRequest.MapWindow window)

def XUnmapWindow (d : Display) (window : Nat) : Display :=
  d.send (XRequest.UnmapWindow window)

def XDestroyWindow (d : Display) (window : Nat) : Display :=
  d.send (XRequest.DestroyWindow window)

def XFlush (d : Display) : Display :=
  d.send XRequest.Flush

/-- Xlib's `XCheckIfEvent`: the first buffered event that satisfies the
predicate is removed from the buffer and returned; `none` when no buffered
event satisfies it (the call never waits). -/
def XCheckIfEvent (pending : List XEvent) (predicate : XEvent → Nat → Bool) (arg : Nat) :
    Option (XEvent × List XEvent) :=
  match pending with
  | [] => none
  | e :: es =>
    if predicate e arg then some (e, es)
    else match XCheckIfEvent es predicate arg with
      | none => none
      | some (found, rest) => some (found, e :: rest)

/-! ## Machine integers -/

/-- The conversion `(uint)i` of an `int`, 32 bits wide. -/
def toUint (i : Int) : Nat := (i % 2 ^ 32).toNat

/-- The conversion `static_cast<long>(a)` of an `unsigned long`, 64 bits wide. -/
def toLong (a : Nat) : Int :=
  if a % 2 ^ 64 < 2 ^ 63 then (a % 2 ^ 64 : Nat) else ((a % 2 ^ 64 : Nat) : Int) - 2 ^ 64

/-! ## Events and window -/

/-- Modelled from the spec: the enumeration `MouseButton` of the absent header
`GL/Window/Event.hpp` (left, middle, right). -/
inductive MouseButton where
  | Left
  | Middle
  | Right
deriving DecidableEq, Repr

/-- Modelled from the spec: the record `Event` of the absent header
`GL/Window/Event.hpp`, as the tagged union of the spec's data model. The
constructor stands for the field `Type` (each `Event::K` is a nonzero tag) and
carries the members that the translator sets for that kind: `Window.Width`,
`Window.Height` for `Resize`, `Window.X`, `Window.Y` for `Move`, `Mouse.X`,
`Mouse.Y` and `Mouse.Button` or `Mouse.Delta` for the mouse kinds. -/
inductive Event where
  | Close
  | Resize (width height : Nat)
  | Move (x y : Int)
  | Focus
  | Blur
  | MouseDown (x y : Int) (button : MouseButton)
  | MouseUp (x y : Int) (button : MouseButton)
  | MouseMove (x y : Int)
  | MouseWheel (x y : Int) (delta : Int)
deriving DecidableEq, Repr

/-- The test `Type == Event::Resize`. -/
def Event.isResize : Event → Bool
  | Event.Resize _ _ => true
  | _ => false

/-- The test `Type == Event::Move`. -/
def Event.isMove : Event → Bool
  | Event.Move _ _ => true
  | _ => false

/-- The member variables of `GL::Window` (the arrays `mouse` and `keys` are
written by the constructor only and are left out). `isOpen` is the member
`open`, `close` the atom `WM_DELETE_WINDOW` registered by the constructor. -/
structure Window where
  display : Display
  window : Nat
  close : Nat
  x : Int
  y : Int
  width : Nat
  height : Nat
  isOpen : Bool
  focus : Bool
  mousex : Int
  mousey : Int
  events : List Event
deriving DecidableEq, Repr

/-- The assignment through `events.back()`: the last element of the queue is
replaced, the others stay. -/
def setBack (events : List Event) (ev : Event) : List Event :=
  events.dropLast ++ [ev]

/-- The end of `Window::WindowEvent`: `if ( ev.Type != 0 ) events.push( ev );`. -/
def pushEvent (w : Window) (ev : Option Event) : Window :=
  match ev with
  | none => w
  | some e => { w with events := w.events ++ [e] }

/-- The case `ConfigureNotify` of `Window::WindowEvent`: the window after the
case and the local `ev`. -/
def configureNotify (w : Window) (c : XConfigureEvent) : Window × Option Event :=
  if toUint c.width ≠ w.width ∨ toUint c.height ≠ w.height then
    let w1 := { w with width := toUint c.width, height := toUint c.height }
    if w1.events.isEmpty then
      (w1, some (Event.Resize w1.width w1.height))
    else if (w1.events.getLast?.map Event.isResize) = some true then
      ({ w1 with events := setBack w1.events (Event.Resize w1.width w1.height) }, none)
    else
      (w1, none)
  else if c.x ≠ w.x ∨ c.y ≠ w.y then
    let w1 := { w with x := c.x, y := c.y }
    if w1.events.isEmpty then
      (w1, some (Event.Move w1.x w1.y))
    else if (w1.events.getLast?.map Event.isMove) = some true then
      ({ w1 with events := setBack w1.events (Event.Move w1.x w1.y) }, none)
    else
      (w1, none)
  else
    (w, none)

/-- The case `ButtonPress` of `Window::WindowEvent`. Under the guard
`button == Button1 || button == Button2 || button == Button3` the last test
`else if ( button == Button3 )` of the chain that sets `ev.Mouse.Button` cannot
fail, so it is the final `else` here. -/
def buttonPress (w : Window) (b : XButtonEvent) : Window × Option Event :=
  let button := b.button
  if button = Button1 ∨ button = Button2 ∨ button = Button3 then
    let w1 := { w with mousex := b.x, mousey := b.y }
    (w1, some (Event.MouseDown w1.mousex w1.mousey
      (if button = Button1 then MouseButton.Left
       else if button = Button2 then MouseButton.Middle
       else MouseButton.Right)))
  else
    (w, none)

/-- The case `ButtonRelease` of `Window::WindowEvent` (the chain that sets
`ev.Mouse.Button` as in `buttonPress`). -/
def buttonRelease (w : Window) (b : XButtonEvent) : Window × Option Event :=
  let button := b.button
  if button = Button1 ∨ button = Button2 ∨ button = Button3 then
    let w1 := { w with mousex := b.x, mousey := b.y }
    (w1, some (Event.MouseUp w1.mousex w1.mousey
      (if button = Button1 then MouseButton.Left
       else if button = Button2 then MouseButton.Middle
       else MouseButton.Right)))
  else if button = Button4 ∨ button = Button5 then
    let w1 := { w with mousex := b.x, mousey := b.y }
    (w1, some (Event.MouseWheel w1.mousex w1.mousey (if button = Button4 then 1 else -1)))
  else
    (w, none)

/-- The `switch ( event.type )` of `Window::WindowEvent`: the window after the
switch and the local `ev`. -/
def translateSwitch (w : Window) (event : XEvent) : Window × Option Event :=
  if event.type = ClientMessage then
    if event.xclient.format = 32 ∧ event.xclient.data_l0 = toLong w.close then
      ({ w with isOpen := false }, some Event.Close)
    else
      (w, none)
  else if event.type = ConfigureNotify then
    configureNotify w event.xconfigure
  else if event.type = FocusIn then
    ({ w with focus := true }, some Event.Focus)
  else if event.type = FocusOut then
    ({ w with focus := false }, some Event.Blur)
  else if event.type = ButtonPress then
    buttonPress w event.xbutton
  else if event.type = ButtonRelease then
    buttonRelease w event.xbutton
  else if event.type = MotionNotify then
    let w1 := { w with mousex := event.xmotion.x, mousey := event.xmotion.y }
    (w1, some (Event.MouseMove w1.mousex w1.mousey))
  else
    (w, none)

/-- `Window::WindowEvent`: translate one native event, then push the local
`ev` when its type was set. -/
def WindowEvent (w : Window) (event : XEvent) : Window :=
  pushEvent (translateSwitch w event).1 (translateSwitch w event).2

/-- `Window::CheckEvent`: the predicate handed to `XCheckIfEvent`. -/
def CheckEvent (event : XEvent) (userData : Nat) : Bool :=
  event.xany_window == userData

/-- The loop `while ( XCheckIfEvent( ... ) ) WindowEvent( event );` of
`Window::GetEvent`. Every turn removes one event from the connection, so as
many turns as there are buffered events always suffice; `fuel` bounds the
number of turns. -/
def fetchEvents : Nat → Window → Window
  | 0, w => w
  | fuel + 1, w =>
    match XCheckIfEvent w.display.pending CheckEvent w.window with
    | none => w
    | some (event, rest) =>
      fetchEvents fuel (WindowEvent { w with display := { w.display with pending := rest } } event)

/-- `Window::GetEvent`: fetch and translate the new events, then return the
oldest queued event, if there is one, and remove it. `none` is the result
`false`. -/
def GetEvent (w : Window) : Window × Option Event :=
  let w1 := fetchEvents w.display.pending.length w
  match w1.events with
  | [] => (w1, none)
  | ev :: rest => ({ w1 with events := rest }, some ev)

/-- `Window::SetPos`. -/
def SetPos (w : Window) (x y : Int) : Window :=
  if !w.isOpen then w
  else { w with display := XFlush (XMoveWindow w.display w.window x y) }

/-- `Window::SetSize`. -/
def SetSize (w : Window) (width height : Nat) : Window :=
  if !w.isOpen then w
  else { w with display := XFlush (XResizeWindow w.display w.window width height) }

/-- `Window::SetTitle`. -/
def SetTitle (w : Window) (title : String) : Window :=
  if !w.isOpen then w
  else { w with display := XStoreName w.display w.window title }

/-- `Window::SetVisible`. -/
def SetVisible (w : Window) (visible : Bool) : Window :=
  if !w.isOpen then w
  else
    { w with display :=
        XFlush (if visible then XMapWindow w.display w.window
                else XUnmapWindow w.display w.window) }

/-- `Window::Close`. -/
def Close (w : Window) : Window :=
  { w with display := XFlush (XDestroyWindow w.display w.window), isOpen := false }

/-- Translating a sequence of native events one after the other, oldest first:
what the loop of `GetEvent` does with the events it fetches. -/
def translateAll (w : Window) (es : List XEvent) : Window :=
  es.foldl WindowEvent w

/-- The width and height that a configure notification carries, converted to
`uint` as the translator converts them. -/
def configureSize (e : XEvent) : Nat × Nat :=
  (toUint e.xconfigure.width, toUint e.xconfigure.height)

/-- The events of the connection that `CheckEvent` selects for the window. -/
def ownEvents (w : Window) : List XEvent :=
  w.display.pending.filter (fun e => CheckEvent e w.window)

/-- The events of the connection that `CheckEvent` rejects for the window. -/
def foreignEvents (w : Window) : List XEvent :=
  w.display.pending.filter (fun e => !CheckEvent e w.window)

/-- A run of `n` calls of `GetEvent`, one after the other, with the results in
the order of the calls. -/
def pollMany : Nat → Window → Window × List (Option Event)
  | 0, w => (w, [])
  | n + 1, w =>
    ((pollMany n (GetEvent w).1).1, (GetEvent w).2 :: (pollMany n (GetEvent w).1).2)

/-! ## Example inputs -/

/-- A native event of the given type whose members are all zero, for window 1. -/
def blankEvent (type : Int) : XEvent :=
  { type := type, xany_window := 1, xclient := ⟨0, 0⟩, xconfigure := ⟨0, 0, 0, 0⟩,
    xbutton := ⟨0, 0, 0⟩, xmotion := ⟨0, 0⟩ }

/-- A configure notification for window 1. -/
def configureEvent (x y width height : Int) : XEvent :=
  { blankEvent ConfigureNotify with xconfigure := ⟨x, y, width, height⟩ }

/-- A button press or release (according to `type`) for window 1. -/
def buttonEvent (type : Int) (button : Nat) (x y : Int) : XEvent :=
  { blankEvent type with xbutton := ⟨x, y, button⟩ }

/-- A pointer motion notification for window 1. -/
def motionEvent (x y : Int) : XEvent :=
  { blankEvent MotionNotify with xmotion := ⟨x, y⟩ }

/-- A client message for window 1. -/
def clientEvent (format data : Int) : XEvent :=
  { blankEvent ClientMessage with xclient := ⟨format, data⟩ }

/-- An open window 1 of size 800x600 at the origin, close atom 7, with the given
queue and nothing waiting on the connection. -/
def sampleWindow (events : List Event) : Window :=
  { display := ⟨[], []⟩, window := 1, close := 7, x := 0, y := 0, width := 800, height := 600,
    isOpen := true, focus := false, mousex := 0, mousey := 0, events := events }

/-- The burst of the resize scenario: three configure notifications with the
sizes 801x600, 850x620 and 900x650. -/
def resizeBurst : List XEvent :=
  [configureEvent 0 0 801 600, configureEvent 0 0 850 620, configureEvent 0 0 900 650]

/-- The normalized event that the specification assigns to one native event
other than a configure notification: `Close` for a close request, `Focus` and
`Blur` for focus gained and lost, `MouseDown` for a press of the left, middle or
right button, `MouseUp` for a release of one of these, `MouseWheel` with delta
`+1` or `-1` for a release of a wheel button, `MouseMove` for a pointer motion,
and nothing for every other native event. -/
def normalizedOf (close : Nat) (e : XEvent) : Option Event :=
  if e.type = ClientMessage then
    if e.xclient.format = 32 ∧ e.xclient.data_l0 = toLong close then some Event.Close else none
  else if e.type = FocusIn then some Event.Focus
  else if e.type = FocusOut then some Event.Blur
  else if e.type = ButtonPress then
    match e.xbutton.button with
    | 1 => some (Event.MouseDown e.xbutton.x e.xbutton.y MouseButton.Left)
    | 2 => some (Event.MouseDown e.xbutton.x e.xbutton.y MouseButton.Middle)
    | 3 => some (Event.MouseDown e.xbutton.x e.xbutton.y MouseButton.Right)
    | _ => none
  else if e.type = ButtonRelease then
    match e.xbutton.button with
    | 1 => some (Event.MouseUp e.xbutton.x e.xbutton.y MouseButton.Left)
    | 2 => some (Event.MouseUp e.xbutton.x e.xbutton.y MouseButton.Middle)
    | 3 => some (Event.MouseUp e.xbutton.x e.xbutton.y MouseButton.Right)
    | 4 => some (Event.MouseWheel e.xbutton.x e.xbutton.y 1)
    | 5 => some (Event.MouseWheel e.xbutton.x e.xbutton.y (-1))
    | _ => none
  else if e.type = MotionNotify then some (Event.MouseMove e.xmotion.x e.xmotion.y)
  else none

/-- A focus notification: focus gained or focus lost. -/
def isFocusNotification (e : XEvent) : Bool :=
  e.type == FocusIn || e.type == FocusOut

/-- The test for a geometry event: `Type == Event::Resize` or
`Type == Event::Move`. -/
def Event.isGeometry (e : Event) : Bool :=
  e.isResize || e.isMove

/-- One step in the life of a window after its construction: the translation of
one native event, the arrival of native events on the connection, a call of
`GetEvent`, or a call of one of the mutators. -/
inductive Operation where
  | translate (event : XEvent)
  | arrive (events : List XEvent)
  | pollEvent
  | setPosition (x y : Int)
  | setSize (width height : Nat)
  | setTitle (title : String)
  | setVisible (visible : Bool)
  | close
deriving DecidableEq, Repr

/-- The window after one step. -/
def Operation.run (w : Window) : Operation → Window
  | Operation.translate event => WindowEvent w event
  | Operation.arrive events =>
    { w with display := { w.display with pending := w.display.pending ++ events } }
  | Operation.pollEvent => (GetEvent w).1
  | Operation.setPosition x y => SetPos w x y
  | Operation.setSize width height => SetSize w width height
  | Operation.setTitle title => SetTitle w title
  | Operation.setVisible visible => SetVisible w visible
  | Operation.close => Close w

/-- The window after a sequence of steps, first step first. -/
def runOperations (w : Window) (ops : List Operation) : Window :=
  ops.foldl Operation.run w

/-- The sample window after its close flag was cleared: `isOpen` is false, the
queue is empty and no request was sent yet. -/
def closedWindow : Window :=
  { sampleWindow [] with isOpen := false }

/-! ## General facts about the translator -/

theorem translateAll_nil (w : Window) : translateAll w [] = w := rfl

theorem translateAll_cons (w : Window) (e : XEvent) (es : List XEvent) :
    translateAll w (e :: es) = translateAll (WindowEvent w e) es := rfl

theorem translateAll_append (w : Window) (es fs : List XEvent) :
    translateAll w (es ++ fs) = translateAll (translateAll w es) fs := by
  simp [translateAll, List.foldl_append]

/-- A configure notification with a changed size, translated with an empty queue. -/
theorem WindowEvent_resize_empty (w : Window) (event : XEvent)
    (ht : event.type = ConfigureNotify)
    (hs : configureSize event ≠ (w.width, w.height))
    (hq : w.events = []) :
    WindowEvent w event =
      { w with width := (configureSize event).1, height := (configureSize event).2,
               events := [Event.Resize (configureSize event).1 (configureSize event).2] } := by
  have hs1 : toUint event.xconfigure.width ≠ w.width
      ∨ toUint event.xconfigure.height ≠ w.height := by
    by_contra hc
    push_neg at hc
    exact hs (by simp [configureSize, hc.1, hc.2])
  simp [WindowEvent, translateSwitch, ht, ConfigureNotify, ClientMessage, configureNotify, hs1, hq,
    pushEvent, configureSize]

/-- A configure notification with a changed size, translated when the last queued
event is a `Resize`. -/
theorem WindowEvent_resize_coalesce (w : Window) (event : XEvent) (q : List Event) (a b : Nat)
    (ht : event.type = ConfigureNotify)
    (hs : configureSize event ≠ (w.width, w.height))
    (hq : w.events = q ++ [Event.Resize a b]) :
    WindowEvent w event =
      { w with width := (configureSize event).1, height := (configureSize event).2,
               events := q ++ [Event.Resize (configureSize event).1 (configureSize event).2] } := by
  have hs1 : toUint event.xconfigure.width ≠ w.width
      ∨ toUint event.xconfigure.height ≠ w.height := by
    by_contra hc
    push_neg at hc
    exact hs (by simp [configureSize, hc.1, hc.2])
  simp [WindowEvent, translateSwitch, ht, ConfigureNotify, ClientMessage, configureNotify, hs1, hq,
    pushEvent, configureSize, setBack, Event.isResize]

/-- A configure notification with a changed size, translated when the queue is not
empty and its last event is not a `Resize`: the size is stored and the queue is
left as it was. -/
theorem WindowEvent_resize_dropped (w : Window) (event : XEvent) (q : List Event) (last : Event)
    (ht : event.type = ConfigureNotify)
    (hs : configureSize event ≠ (w.width, w.height))
    (hq : w.events = q ++ [last]) (hl : last.isResize = false) :
    WindowEvent w event =
      { w with width := (configureSize event).1, height := (configureSize event).2 } := by
  have hs1 : toUint event.xconfigure.width ≠ w.width
      ∨ toUint event.xconfigure.height ≠ w.height := by
    by_contra hc
    push_neg at hc
    exact hs (by simp [configureSize, hc.1, hc.2])
  simp [WindowEvent, translateSwitch, ht, ConfigureNotify, ClientMessage, configureNotify, hs1, hq,
    pushEvent, configureSize, hl]

theorem configureNotify_setDisplay (w : Window) (d : Display) (c : XConfigureEvent) :
    configureNotify { w with display := d } c =
      ({ (configureNotify w c).1 with display := d }, (configureNotify w c).2) := by
  simp only [configureNotify]
  split_ifs <;> rfl

theorem buttonPress_setDisplay (w : Window) (d : Display) (b : XButtonEvent) :
    buttonPress { w with display := d } b =
      ({ (buttonPress w b).1 with display := d }, (buttonPress w b).2) := by
  simp only [buttonPress]
  split_ifs <;> rfl

theorem buttonRelease_setDisplay (w : Window) (d : Display) (b : XButtonEvent) :
    buttonRelease { w with display := d } b =
      ({ (buttonRelease w b).1 with display := d }, (buttonRelease w b).2) := by
  simp only [buttonRelease]
  split_ifs <;> rfl

theorem translateSwitch_setDisplay (w : Window) (d : Display) (event : XEvent) :
    translateSwitch { w with display := d } event =
      ({ (translateSwitch w event).1 with display := d }, (translateSwitch w event).2) := by
  simp only [translateSwitch, configureNotify_setDisplay, buttonPress_setDisplay,
    buttonRelease_setDisplay]
  split_ifs <;> rfl

theorem pushEvent_setDisplay (w : Window) (d : Display) (ev : Option Event) :
    pushEvent { w with display := d } ev = { pushEvent w ev with display := d } := by
  cases ev <;> rfl

theorem WindowEvent_setDisplay (w : Window) (d : Display) (event : XEvent) :
    WindowEvent { w with display := d } event = { WindowEvent w event with display := d } := by
  unfold WindowEvent
  rw [translateSwitch_setDisplay, pushEvent_setDisplay]

theorem configureNotify_frame (w : Window) (c : XConfigureEvent) :
    (configureNotify w c).1.display = w.display ∧ (configureNotify w c).1.window = w.window
    ∧ (configureNotify w c).1.close = w.close := by
  simp only [configureNotify]
  split_ifs <;> exact ⟨rfl, rfl, rfl⟩

theorem buttonPress_frame (w : Window) (b : XButtonEvent) :
    (buttonPress w b).1.display = w.display ∧ (buttonPress w b).1.window = w.window
    ∧ (buttonPress w b).1.close = w.close := by
  simp only [buttonPress]
  split_ifs <;> exact ⟨rfl, rfl, rfl⟩

theorem buttonRelease_frame (w : Window) (b : XButtonEvent) :
    (buttonRelease w b).1.display = w.display ∧ (buttonRelease w b).1.window = w.window
    ∧ (buttonRelease w b).1.close = w.close := by
  simp only [buttonRelease]
  split_ifs <;> exact ⟨rfl, rfl, rfl⟩

/-- The translator leaves the connection, the window handle and the close atom
as they are. -/
theorem translateSwitch_frame (w : Window) (event : XEvent) :
    (translateSwitch w event).1.display = w.display
    ∧ (translateSwitch w event).1.window = w.window
    ∧ (translateSwitch w event).1.close = w.close := by
  simp only [translateSwitch]
  split_ifs <;>
    first
      | exact configureNotify_frame w _
      | exact buttonPress_frame w _
      | exact buttonRelease_frame w _
      | exact ⟨rfl, rfl, rfl⟩

theorem pushEvent_frame (w : Window) (ev : Option Event) :
    (pushEvent w ev).display = w.display ∧ (pushEvent w ev).window = w.window
    ∧ (pushEvent w ev).close = w.close := by
  cases ev <;> exact ⟨rfl, rfl, rfl⟩

theorem WindowEvent_display (w : Window) (event : XEvent) :
    (WindowEvent w event).display = w.display := by
  unfold WindowEvent
  rw [(pushEvent_frame _ _).1, (translateSwitch_frame w event).1]

theorem WindowEvent_window (w : Window) (event : XEvent) :
    (WindowEvent w event).window = w.window := by
  unfold WindowEvent
  rw [(pushEvent_frame _ _).2.1, (translateSwitch_frame w event).2.1]

theorem WindowEvent_close (w : Window) (event : XEvent) :
    (WindowEvent w event).close = w.close := by
  unfold WindowEvent
  rw [(pushEvent_frame _ _).2.2, (translateSwitch_frame w event).2.2]

theorem translateAll_setDisplay (es : List XEvent) (w : Window) (d : Display) :
    translateAll { w with display := d } es = { translateAll w es with display := d } := by
  induction es generalizing w with
  | nil => rfl
  | cons e es ih => rw [translateAll_cons, translateAll_cons, WindowEvent_setDisplay, ih]

theorem translateAll_display (es : List XEvent) (w : Window) :
    (translateAll w es).display = w.display := by
  induction es generalizing w with
  | nil => rfl
  | cons e es ih => rw [translateAll_cons, ih, WindowEvent_display]

theorem translateAll_window (es : List XEvent) (w : Window) :
    (translateAll w es).window = w.window := by
  induction es generalizing w with
  | nil => rfl
  | cons e es ih => rw [translateAll_cons, ih, WindowEvent_window]

theorem translateAll_close (es : List XEvent) (w : Window) :
    (translateAll w es).close = w.close := by
  induction es generalizing w with
  | nil => rfl
  | cons e es ih => rw [translateAll_cons, ih, WindowEvent_close]

/-- What `XCheckIfEvent` returns, in terms of the events the predicate selects. -/
theorem XCheckIfEvent_spec (predicate : XEvent → Nat → Bool) (arg : Nat)
    (pending : List XEvent) :
    match XCheckIfEvent pending predicate arg with
    | none => pending.filter (fun e => predicate e arg) = []
    | some (found, rest) =>
        pending.filter (fun e => predicate e arg) = found :: rest.filter (fun e => predicate e arg)
        ∧ rest.filter (fun e => !predicate e arg) = pending.filter (fun e => !predicate e arg)
        ∧ rest.length + 1 = pending.length := by
  induction pending with
  | nil => simp [XCheckIfEvent]
  | cons e es ih =>
    unfold XCheckIfEvent
    by_cases h : predicate e arg = true
    · simp [h]
    · simp only [h]
      cases hx : XCheckIfEvent es predicate arg with
      | none =>
        rw [hx] at ih
        simpa [h] using ih
      | some p =>
        obtain ⟨found, rest⟩ := p
        rw [hx] at ih
        simp at ih
        simp [h, ih.1, ih.2.1, ih.2.2]

/-- The fetch loop of `GetEvent` ends: with as much fuel as there are buffered
events it has translated the window's own events, oldest first, and has left the
others on the connection. -/
theorem fetchEvents_eq (fuel : Nat) (w : Window) (hf : w.display.pending.length ≤ fuel) :
    fetchEvents fuel w =
      { translateAll w (ownEvents w) with
        display := { w.display with pending := foreignEvents w } } := by
  induction fuel generalizing w with
  | zero =>
    have h0 : w.display.pending = [] := List.length_eq_zero.mp (Nat.le_zero.mp hf)
    obtain ⟨⟨pending, requests⟩, window, close, x, y, width, height, isOpen, focus, mousex, mousey,
      events⟩ := w
    simp only at h0
    subst h0
    rfl
  | succ n ih =>
    have hspec := XCheckIfEvent_spec CheckEvent w.window w.display.pending
    unfold fetchEvents
    cases hx : XCheckIfEvent w.display.pending CheckEvent w.window with
    | none =>
      rw [hx] at hspec
      simp only at hspec
      have hall : foreignEvents w = w.display.pending := by
        unfold foreignEvents
        rw [List.filter_eq_self]
        intro a ha
        have : a ∉ w.display.pending.filter (fun e => CheckEvent e w.window) := by simp [hspec]
        simpa [List.mem_filter, ha] using this
      have hown : ownEvents w = [] := hspec
      rw [hall, hown]
      rfl
    | some p =>
      obtain ⟨found, rest⟩ := p
      rw [hx] at hspec
      simp only at hspec
      obtain ⟨h1, h2, h3⟩ := hspec
      simp only
      rw [WindowEvent_setDisplay, ih _ (by simp only; omega)]
      have own2 : ownEvents { WindowEvent w found with
            display := { w.display with pending := rest } }
          = rest.filter (fun e => CheckEvent e w.window) := by
        simp only [ownEvents, WindowEvent_window]
      have for2 : foreignEvents { WindowEvent w found with
            display := { w.display with pending := rest } }
          = foreignEvents w := by
        simp only [foreignEvents, WindowEvent_window, h2]
      have own1 : ownEvents w = found :: rest.filter (fun e => CheckEvent e w.window) := h1
      rw [own2, for2, own1, translateAll_cons, translateAll_setDisplay]

/-- A configure notification with the size unchanged and a changed position,
translated with an empty queue. -/
theorem WindowEvent_move_empty (w : Window) (event : XEvent)
    (ht : event.type = ConfigureNotify)
    (hs : configureSize event = (w.width, w.height))
    (hp : event.xconfigure.x ≠ w.x ∨ event.xconfigure.y ≠ w.y)
    (hq : w.events = []) :
    WindowEvent w event =
      { w with x := event.xconfigure.x, y := event.xconfigure.y,
               events := [Event.Move event.xconfigure.x event.xconfigure.y] } := by
  simp only [configureSize, Prod.mk.injEq] at hs
  simp [WindowEvent, translateSwitch, ht, ConfigureNotify, ClientMessage, configureNotify, hs.1,
    hs.2, hp, hq, pushEvent]

/-- A configure notification with the size unchanged and a changed position,
translated when the last queued event is a `Move`. -/
theorem WindowEvent_move_coalesce (w : Window) (event : XEvent) (q : List Event) (a b : Int)
    (ht : event.type = ConfigureNotify)
    (hs : configureSize event = (w.width, w.height))
    (hp : event.xconfigure.x ≠ w.x ∨ event.xconfigure.y ≠ w.y)
    (hq : w.events = q ++ [Event.Move a b]) :
    WindowEvent w event =
      { w with x := event.xconfigure.x, y := event.xconfigure.y,
               events := q ++ [Event.Move event.xconfigure.x event.xconfigure.y] } := by
  simp only [configureSize, Prod.mk.injEq] at hs
  simp [WindowEvent, translateSwitch, ht, ConfigureNotify, ClientMessage, configureNotify, hs.1,
    hs.2, hp, hq, pushEvent, setBack, Event.isMove]

/-- A configure notification with the size unchanged and a changed position,
translated when the queue is not empty and its last event is not a `Move`: the
position is stored and the queue is left as it was. -/
theorem WindowEvent_move_dropped (w : Window) (event : XEvent) (q : List Event) (last : Event)
    (ht : event.type = ConfigureNotify)
    (hs : configureSize event = (w.width, w.height))
    (hp : event.xconfigure.x ≠ w.x ∨ event.xconfigure.y ≠ w.y)
    (hq : w.events = q ++ [last]) (hl : last.isMove = false) :
    WindowEvent w event = { w with x := event.xconfigure.x, y := event.xconfigure.y } := by
  simp only [configureSize, Prod.mk.injEq] at hs
  simp [WindowEvent, translateSwitch, ht, ConfigureNotify, ClientMessage, configureNotify, hs.1,
    hs.2, hp, hq, pushEvent, hl]

/-- A burst of size-changing configure notifications, translated from a queue that
is empty or holds one `Resize`, leaves one `Resize` with the last size. -/
theorem translateAll_resize_burst (ns : List XEvent) (hne : ns ≠ []) :
    ∀ w : Window,
      (∀ e ∈ ns, e.type = ConfigureNotify) →
      List.Chain (fun held incoming => incoming ≠ held) (w.width, w.height)
        (ns.map configureSize) →
      (w.events = [] ∨ ∃ a b, w.events = [Event.Resize a b]) →
      translateAll w ns =
        { w with width := (configureSize (ns.getLast hne)).1,
                 height := (configureSize (ns.getLast hne)).2,
                 events := [Event.Resize (configureSize (ns.getLast hne)).1
                              (configureSize (ns.getLast hne)).2] } := by
  induction ns with
  | nil => exact absurd rfl hne
  | cons e es ih =>
    intro w ht hc hq
    rw [List.map_cons, List.chain_cons] at hc
    have hte : e.type = ConfigureNotify := ht e (List.mem_cons_self _ _)
    have h1 : WindowEvent w e =
        { w with width := (configureSize e).1, height := (configureSize e).2,
                 events := [Event.Resize (configureSize e).1 (configureSize e).2] } := by
      rcases hq with hq | ⟨a, b, hq⟩
      · exact WindowEvent_resize_empty w e hte hc.1 hq
      · simpa using WindowEvent_resize_coalesce w e [] a b hte hc.1 (by simpa using hq)
    rw [translateAll_cons, h1]
    by_cases hes : es = []
    · subst hes
      rfl
    · rw [ih hes _ (fun x hx => ht x (List.mem_cons_of_mem _ hx)) hc.2 (Or.inr ⟨_, _, rfl⟩)]
      simp only [List.getLast_cons hes]

theorem foreignEvents_of_ownEvents_nil (w : Window) (h : ownEvents w = []) :
    foreignEvents w = w.display.pending := by
  unfold foreignEvents
  rw [List.filter_eq_self]
  intro a ha
  have : a ∉ w.display.pending.filter (fun e => CheckEvent e w.window) := by
    rw [show w.display.pending.filter (fun e => CheckEvent e w.window) = [] from h]
    simp
  simpa [List.mem_filter, ha] using this

/-- With none of the window's own events waiting on the connection, `GetEvent`
only pops the queue. -/
theorem GetEvent_idle (w : Window) (h : ownEvents w = []) :
    GetEvent w = ({ w with events := w.events.tail }, w.events.head?) := by
  unfold GetEvent
  rw [fetchEvents_eq _ _ (le_refl _), h, foreignEvents_of_ownEvents_nil w h]
  simp only [translateAll_nil]
  cases hq : w.events <;> rfl

/-- A pointer motion notification, translated. -/
theorem WindowEvent_motion (w : Window) (event : XEvent) (ht : event.type = MotionNotify) :
    WindowEvent w event =
      { w with mousex := event.xmotion.x, mousey := event.xmotion.y,
               events := w.events ++ [Event.MouseMove event.xmotion.x event.xmotion.y] } := by
  simp [WindowEvent, translateSwitch, ht, MotionNotify, ClientMessage, ConfigureNotify, FocusIn,
    FocusOut, ButtonPress, ButtonRelease, pushEvent]

/-- A focus-gained notification, translated. -/
theorem WindowEvent_focusIn (w : Window) (event : XEvent) (ht : event.type = FocusIn) :
    WindowEvent w event = { w with focus := true, events := w.events ++ [Event.Focus] } := by
  simp [WindowEvent, translateSwitch, ht, ClientMessage, ConfigureNotify, FocusIn, pushEvent]

/-- A focus-lost notification, translated. -/
theorem WindowEvent_focusOut (w : Window) (event : XEvent) (ht : event.type = FocusOut) :
    WindowEvent w event = { w with focus := false, events := w.events ++ [Event.Blur] } := by
  simp [WindowEvent, translateSwitch, ht, ClientMessage, ConfigureNotify, FocusIn, FocusOut,
    pushEvent]

/-- A client message, translated. -/
theorem WindowEvent_clientMessage (w : Window) (event : XEvent) (ht : event.type = ClientMessage) :
    WindowEvent w event =
      if event.xclient.format = 32 ∧ event.xclient.data_l0 = toLong w.close then
        { w with isOpen := false, events := w.events ++ [Event.Close] }
      else w := by
  by_cases h : event.xclient.format = 32 ∧ event.xclient.data_l0 = toLong w.close
  · simp [WindowEvent, translateSwitch, ht, h, pushEvent]
  · simp only [WindowEvent, translateSwitch, ht, if_true, if_neg h, pushEvent]

/-- A button press, translated. -/
theorem WindowEvent_buttonPress (w : Window) (event : XEvent) (ht : event.type = ButtonPress) :
    WindowEvent w event =
      pushEvent (buttonPress w event.xbutton).1 (buttonPress w event.xbutton).2 := by
  simp [WindowEvent, translateSwitch, ht, ClientMessage, ConfigureNotify, FocusIn, FocusOut,
    ButtonPress]

/-- A button release, translated. -/
theorem WindowEvent_buttonRelease (w : Window) (event : XEvent) (ht : event.type = ButtonRelease) :
    WindowEvent w event =
      pushEvent (buttonRelease w event.xbutton).1 (buttonRelease w event.xbutton).2 := by
  simp [WindowEvent, translateSwitch, ht, ClientMessage, ConfigureNotify, FocusIn, FocusOut,
    ButtonPress, ButtonRelease]

/-- A configure notification, translated. -/
theorem WindowEvent_configure (w : Window) (event : XEvent) (ht : event.type = ConfigureNotify) :
    WindowEvent w event =
      pushEvent (configureNotify w event.xconfigure).1 (configureNotify w event.xconfigure).2 := by
  simp [WindowEvent, translateSwitch, ht, ClientMessage, ConfigureNotify]

/-- A native event of a type that the switch does not list, translated. -/
theorem WindowEvent_default (w : Window) (event : XEvent)
    (h1 : event.type ≠ ClientMessage) (h2 : event.type ≠ ConfigureNotify)
    (h3 : event.type ≠ FocusIn) (h4 : event.type ≠ FocusOut) (h5 : event.type ≠ ButtonPress)
    (h6 : event.type ≠ ButtonRelease) (h7 : event.type ≠ MotionNotify) :
    WindowEvent w event = w := by
  simp [WindowEvent, translateSwitch, h1, h2, h3, h4, h5, h6, h7, pushEvent]

/-- The queue after a translation that is not of a configure notification: the
old queue, followed by the event that the specification assigns. -/
theorem WindowEvent_events_of_not_configure (w : Window) (event : XEvent)
    (hc : event.type ≠ ConfigureNotify) :
    (WindowEvent w event).events = w.events ++ (normalizedOf w.close event).toList := by
  by_cases h1 : event.type = ClientMessage
  · rw [WindowEvent_clientMessage w event h1]
    simp only [normalizedOf, h1, if_true]
    split_ifs <;> simp
  by_cases h3 : event.type = FocusIn
  · rw [WindowEvent_focusIn w event h3]
    simp [normalizedOf, h3, FocusIn, ClientMessage]
  by_cases h4 : event.type = FocusOut
  · rw [WindowEvent_focusOut w event h4]
    simp [normalizedOf, h4, FocusIn, FocusOut, ClientMessage]
  by_cases h5 : event.type = ButtonPress
  · rw [WindowEvent_buttonPress w event h5]
    simp only [normalizedOf, h5, buttonPress, Button1, Button2, Button3]
    rcases hb : event.xbutton.button with _ | _ | _ | _ | n <;>
      simp [ButtonPress, ClientMessage, FocusIn, FocusOut, pushEvent]
  by_cases h6 : event.type = ButtonRelease
  · rw [WindowEvent_buttonRelease w event h6]
    simp only [normalizedOf, h6, buttonRelease, Button1, Button2, Button3, Button4, Button5]
    rcases hb : event.xbutton.button with _ | _ | _ | _ | _ | _ | n <;>
      simp [ButtonPress, ButtonRelease, ClientMessage, FocusIn, FocusOut, pushEvent]
  by_cases h7 : event.type = MotionNotify
  · rw [WindowEvent_motion w event h7]
    simp [normalizedOf, h7, ButtonPress, ButtonRelease, ClientMessage, FocusIn, FocusOut,
      MotionNotify]
  · rw [WindowEvent_default w event h1 hc h3 h4 h5 h6 h7]
    simp [normalizedOf, h1, h3, h4, h5, h6, h7]

/-- The focus flag changes only at a focus notification. -/
theorem WindowEvent_focus_of_not_focus (w : Window) (event : XEvent)
    (h3 : event.type ≠ FocusIn) (h4 : event.type ≠ FocusOut) :
    (WindowEvent w event).focus = w.focus := by
  by_cases h1 : event.type = ClientMessage
  · rw [WindowEvent_clientMessage w event h1]
    split_ifs <;> rfl
  by_cases h2 : event.type = ConfigureNotify
  · rw [WindowEvent_configure w event h2]
    simp only [configureNotify]
    split_ifs <;> rfl
  by_cases h5 : event.type = ButtonPress
  · rw [WindowEvent_buttonPress w event h5]
    simp only [buttonPress]
    split_ifs <;> rfl
  by_cases h6 : event.type = ButtonRelease
  · rw [WindowEvent_buttonRelease w event h6]
    simp only [buttonRelease]
    split_ifs <;> rfl
  by_cases h7 : event.type = MotionNotify
  · rw [WindowEvent_motion w event h7]
  · rw [WindowEvent_default w event h1 h2 h3 h4 h5 h6 h7]

/-! ## The claims -/

/-- C1, the code at the failing input: a configure notification of size 900x650,
translated for a window of size 800x600 whose queue holds one `Focus` event,
stores the new size and leaves the queue as it was. The queue is not empty and
its last event is not a `Resize`, and no `Resize` is appended. The same through
`GetEvent`: when a focus-gained notification and that configure notification
wait on the connection of a window with an empty queue, the call returns `Focus`
and leaves an empty queue, so the new size is never reported. -/
theorem C1_resize_dropped_behind_pending_event :
    WindowEvent (sampleWindow [Event.Focus]) (configureEvent 0 0 900 650)
        = { sampleWindow [Event.Focus] with width := 900, height := 650 }
    ∧ (WindowEvent (sampleWindow [Event.Focus]) (configureEvent 0 0 900 650)).events
        = [Event.Focus]
    ∧ GetEvent { sampleWindow [] with
          display := ⟨[blankEvent FocusIn, configureEvent 0 0 900 650], []⟩ }
        = ({ sampleWindow [] with focus := true, width := 900, height := 650 },
            some Event.Focus) := by
  decide

/-- C2, the code at the failing input: a configure notification with the size
unchanged and the position (5,7), translated for a window at (0,0) whose queue
holds one `Resize` event, stores the new position and leaves the queue as it
was. The last queued event is not a `Move`, and no `Move` is appended. The same
through `GetEvent`: when a configure notification with a new size and then one
with that size and a new position wait on the connection of a window with an
empty queue, the call returns the `Resize` and leaves an empty queue, so the new
position is never reported. -/
theorem C2_move_dropped_behind_pending_resize :
    WindowEvent (sampleWindow [Event.Resize 800 600]) (configureEvent 5 7 800 600)
        = { sampleWindow [Event.Resize 800 600] with x := 5, y := 7 }
    ∧ (WindowEvent (sampleWindow [Event.Resize 800 600]) (configureEvent 5 7 800 600)).events
        = [Event.Resize 800 600]
    ∧ GetEvent { sampleWindow [] with
          display := ⟨[configureEvent 0 0 900 650, configureEvent 5 7 900 650], []⟩ }
        = ({ sampleWindow [] with x := 5, y := 7, width := 900, height := 650 },
            some (Event.Resize 900 650)) := by
  decide

/-- C3: a non-empty burst of configure notifications, each with a size different
from the size held just before it, translated from an empty queue, leaves
exactly one queued event, the `Resize` with the size of the last notification,
and the window holds that size; with no further native event for the window, the
next `GetEvent` returns that `Resize` and the one after it returns nothing. -/
theorem C3_resize_burst_collapses (w : Window) (ns : List XEvent) (hne : ns ≠ [])
    (hq : w.events = [])
    (ht : ∀ e ∈ ns, e.type = ConfigureNotify)
    (hc : List.Chain (fun held incoming => incoming ≠ held) (w.width, w.height)
      (ns.map configureSize))
    (hidle : ownEvents w = []) :
    (translateAll w ns).events
        = [Event.Resize (configureSize (ns.getLast hne)).1 (configureSize (ns.getLast hne)).2]
    ∧ ((translateAll w ns).width, (translateAll w ns).height) = configureSize (ns.getLast hne)
    ∧ (GetEvent (translateAll w ns)).2
        = some (Event.Resize (configureSize (ns.getLast hne)).1 (configureSize (ns.getLast hne)).2)
    ∧ (GetEvent (GetEvent (translateAll w ns)).1).2 = none := by
  have hb := translateAll_resize_burst ns hne w ht hc (Or.inl hq)
  have hown : ownEvents (translateAll w ns) = [] := by
    simp only [ownEvents, translateAll_display, translateAll_window]
    exact hidle
  have hg := GetEvent_idle (translateAll w ns) hown
  have hown2 : ownEvents (GetEvent (translateAll w ns)).1 = [] := by
    rw [hg]
    exact hown
  have hg2 := GetEvent_idle (GetEvent (translateAll w ns)).1 hown2
  refine ⟨by rw [hb], by rw [hb], ?_, ?_⟩
  · rw [hg, hb]
    rfl
  · rw [hg2, hg, hb]
    rfl

/-- C3, the scenario: a window of size 800x600 with an empty queue and the
notifications 801x600, 850x620, 900x650 give exactly `Resize 900 650`. -/
theorem C3_resize_burst_collapses_witness :
    (translateAll (sampleWindow []) resizeBurst).events = [Event.Resize 900 650]
    ∧ ((translateAll (sampleWindow []) resizeBurst).width,
        (translateAll (sampleWindow []) resizeBurst).height) = (900, 650)
    ∧ (GetEvent (translateAll (sampleWindow []) resizeBurst)).2 = some (Event.Resize 900 650)
    ∧ (GetEvent (GetEvent (translateAll (sampleWindow []) resizeBurst)).1).2 = none :=
  C3_resize_burst_collapses (sampleWindow []) resizeBurst (by decide) rfl (by decide)
    (by simp [resizeBurst, configureSize, configureEvent, blankEvent, toUint, sampleWindow]) rfl

/-- C4: pointer motion notifications are never merged. Translating motion
notifications in order appends one `MouseMove` for each of them, in arrival
order, behind the queue as it was (equal samples included), and when there is at
least one the cursor is the position of the last. -/
theorem C4_motion_never_coalesced (w : Window) (ms : List XEvent)
    (ht : ∀ e ∈ ms, e.type = MotionNotify) :
    (translateAll w ms).events
        = w.events ++ ms.map (fun e => Event.MouseMove e.xmotion.x e.xmotion.y)
    ∧ ((translateAll w ms).events.length = w.events.length + ms.length)
    ∧ ∀ hne : ms ≠ [],
        (translateAll w ms).mousex = (ms.getLast hne).xmotion.x
        ∧ (translateAll w ms).mousey = (ms.getLast hne).xmotion.y := by
  have hev : ∀ (l : List XEvent), (∀ e ∈ l, e.type = MotionNotify) →
      (translateAll w l).events
        = w.events ++ l.map (fun e => Event.MouseMove e.xmotion.x e.xmotion.y) := by
    intro l
    induction l using List.reverseRecOn with
    | nil => intro _; simp [translateAll_nil]
    | append_singleton l a ih =>
      intro hl
      have ha : a.type = MotionNotify := hl a (by simp)
      rw [translateAll_append, translateAll_cons, translateAll_nil, WindowEvent_motion _ a ha]
      simp [ih (fun e he => hl e (by simp [he]))]
  refine ⟨hev ms ht, by simp [hev ms ht], ?_⟩
  intro hne
  have hlast : (ms.getLast hne).type = MotionNotify := ht _ (List.getLast_mem hne)
  have hsplit : translateAll w ms
      = WindowEvent (translateAll w ms.dropLast) (ms.getLast hne) := by
    conv_lhs => rw [← List.dropLast_append_getLast hne]
    rw [translateAll_append, translateAll_cons, translateAll_nil]
  rw [hsplit, WindowEvent_motion _ _ hlast]
  exact ⟨rfl, rfl⟩

/-- C4, an instance: two equal motion samples and a third one, behind a queue
that holds a `Focus` event. -/
theorem C4_motion_never_coalesced_witness :
    (translateAll (sampleWindow [Event.Focus])
        [motionEvent 3 4, motionEvent 3 4, motionEvent 8 9]).events
      = [Event.Focus, Event.MouseMove 3 4, Event.MouseMove 3 4, Event.MouseMove 8 9]
    ∧ (translateAll (sampleWindow [Event.Focus])
        [motionEvent 3 4, motionEvent 3 4, motionEvent 8 9]).mousex = 8
    ∧ (translateAll (sampleWindow [Event.Focus])
        [motionEvent 3 4, motionEvent 3 4, motionEvent 8 9]).mousey = 9 :=
  have h := C4_motion_never_coalesced (sampleWindow [Event.Focus])
    [motionEvent 3 4, motionEvent 3 4, motionEvent 8 9] (by decide)
  ⟨h.1, h.2.2 (by decide)⟩

/-- C5: a client message of format 32 whose first data word is the window's close
atom clears `isOpen` and appends one `Close` event at the end of the queue;
position, size, focus flag, cursor and everything else stay as they were. -/
theorem C5_close_request (w : Window) (event : XEvent)
    (ht : event.type = ClientMessage)
    (hf : event.xclient.format = 32)
    (hd : event.xclient.data_l0 = toLong w.close) :
    WindowEvent w event = { w with isOpen := false, events := w.events ++ [Event.Close] }
    ∧ (WindowEvent w event).isOpen = false
    ∧ ((WindowEvent w event).x, (WindowEvent w event).y) = (w.x, w.y)
    ∧ ((WindowEvent w event).width, (WindowEvent w event).height) = (w.width, w.height)
    ∧ (WindowEvent w event).focus = w.focus
    ∧ ((WindowEvent w event).mousex, (WindowEvent w event).mousey) = (w.mousex, w.mousey) := by
  have h : WindowEvent w event
      = { w with isOpen := false, events := w.events ++ [Event.Close] } := by
    rw [WindowEvent_clientMessage w event ht, if_pos ⟨hf, hd⟩]
  rw [h]
  exact ⟨rfl, rfl, rfl, rfl, rfl, rfl⟩

/-- C5, an instance: the close request for the sample window, whose close atom
is 7, behind a queued `MouseMove`. -/
theorem C5_close_request_witness :
    WindowEvent (sampleWindow [Event.MouseMove 1 2]) (clientEvent 32 7)
      = { sampleWindow [Event.MouseMove 1 2] with
            isOpen := false, events := [Event.MouseMove 1 2, Event.Close] } :=
  (C5_close_request (sampleWindow [Event.MouseMove 1 2]) (clientEvent 32 7) rfl rfl
    (by decide)).1

/-- What one call of `GetEvent` does: the window's own events are translated,
oldest first, the others stay on the connection, and the head of the queue is
popped. -/
theorem GetEvent_eq (w : Window) :
    GetEvent w =
      ({ translateAll w (ownEvents w) with
          display := { w.display with pending := foreignEvents w },
          events := (translateAll w (ownEvents w)).events.tail },
        (translateAll w (ownEvents w)).events.head?) := by
  unfold GetEvent
  rw [fetchEvents_eq _ _ (le_refl _)]
  simp only
  cases hq : (translateAll w (ownEvents w)).events <;> rfl

/-- A run of calls of `GetEvent` with none of the window's own events waiting
returns the queued events, oldest first, and then nothing. -/
theorem pollMany_idle (q : List Event) :
    ∀ w : Window, ownEvents w = [] → w.events = q →
      (pollMany (q.length + 1) w).2 = q.map some ++ [none] := by
  induction q with
  | nil =>
    intro w hw hq
    simp [pollMany, GetEvent_idle w hw, hq]
  | cons e q ih =>
    intro w hw hq
    have hstep : GetEvent w = ({ w with events := q }, some e) := by
      rw [GetEvent_idle w hw, hq]
      rfl
    have hnext := ih { w with events := q } hw rfl
    rw [List.length_cons, pollMany, hstep, hnext]
    rfl

/-- C6: `GetEvent` first translates all the pending native events of the window
in arrival order (the events of other windows stay on the connection); then it
returns nothing and leaves the queue empty when the resulting queue is empty,
and otherwise returns the first element of the resulting queue and removes that
element and no other. Repeated calls with no new native events return the queued
events in first-in first-out order and then nothing. -/
theorem C6_pollEvent (w : Window) :
    (GetEvent w).1 =
        { translateAll w (ownEvents w) with
            display := { w.display with pending := foreignEvents w },
            events := (translateAll w (ownEvents w)).events.tail }
    ∧ ((translateAll w (ownEvents w)).events = [] →
        (GetEvent w).2 = none ∧ (GetEvent w).1.events = [])
    ∧ (∀ first rest, (translateAll w (ownEvents w)).events = first :: rest →
        (GetEvent w).2 = some first ∧ (GetEvent w).1.events = rest)
    ∧ (ownEvents w = [] →
        (pollMany (w.events.length + 1) w).2 = w.events.map some ++ [none]) := by
  rw [GetEvent_eq w]
  refine ⟨rfl, ?_, ?_, ?_⟩
  · intro h
    simp [h]
  · intro first rest h
    simp [h]
  · intro h
    exact pollMany_idle w.events w h rfl

/-- C6, an instance: a motion and a focus-gained notification wait for window 1
and a motion for window 2; the first call translates the two own events and
returns the oldest queued event; the next calls return the others in order. -/
theorem C6_pollEvent_witness :
    (GetEvent { sampleWindow [Event.Blur] with
        display := ⟨[motionEvent 3 4, { motionEvent 5 6 with xany_window := 2 },
                      blankEvent FocusIn], []⟩ }).2 = some Event.Blur
    ∧ (GetEvent { sampleWindow [Event.Blur] with
        display := ⟨[motionEvent 3 4, { motionEvent 5 6 with xany_window := 2 },
                      blankEvent FocusIn], []⟩ }).1.events = [Event.MouseMove 3 4, Event.Focus]
    ∧ (pollMany 3 (sampleWindow [Event.MouseMove 3 4, Event.Focus])).2
        = [some (Event.MouseMove 3 4), some Event.Focus, none] :=
  ⟨((C6_pollEvent { sampleWindow [Event.Blur] with
        display := ⟨[motionEvent 3 4, { motionEvent 5 6 with xany_window := 2 },
                      blankEvent FocusIn], []⟩ }).2.2.1 Event.Blur
        [Event.MouseMove 3 4, Event.Focus] (by decide)).1,
   ((C6_pollEvent { sampleWindow [Event.Blur] with
        display := ⟨[motionEvent 3 4, { motionEvent 5 6 with xany_window := 2 },
                      blankEvent FocusIn], []⟩ }).2.2.1 Event.Blur
        [Event.MouseMove 3 4, Event.Focus] (by decide)).2,
   (C6_pollEvent (sampleWindow [Event.MouseMove 3 4, Event.Focus])).2.2.2 (by decide)⟩

/-- C7: native events other than configure notifications are never merged or
reordered. Translating a sequence without configure notifications leaves the
queue as it was, followed in arrival order by the one normalized event of each
native event that has one. -/
theorem C7_non_geometry_in_order (w : Window) (es : List XEvent)
    (hc : ∀ e ∈ es, e.type ≠ ConfigureNotify) :
    (translateAll w es).events = w.events ++ es.filterMap (normalizedOf w.close) := by
  induction es generalizing w with
  | nil => simp [translateAll_nil]
  | cons e es ih =>
    rw [translateAll_cons, ih _ (fun x hx => hc x (List.mem_cons_of_mem _ hx)),
      WindowEvent_events_of_not_configure w e (hc e (List.mem_cons_self _ _)), WindowEvent_close]
    cases hn : normalizedOf w.close e <;> simp [List.filterMap_cons, hn]

/-- C7, an instance: focus gained, a key press, a left press, focus gained again,
a wheel release and the close request, behind a queued `Resize`. -/
theorem C7_non_geometry_in_order_witness :
    (translateAll (sampleWindow [Event.Resize 800 600])
      [blankEvent FocusIn, blankEvent KeyPress, buttonEvent ButtonPress 1 10 20,
       blankEvent FocusIn, buttonEvent ButtonRelease 5 1 1, clientEvent 32 7]).events
      = [Event.Resize 800 600, Event.Focus, Event.MouseDown 10 20 MouseButton.Left, Event.Focus,
         Event.MouseWheel 1 1 (-1), Event.Close] :=
  C7_non_geometry_in_order (sampleWindow [Event.Resize 800 600])
    [blankEvent FocusIn, blankEvent KeyPress, buttonEvent ButtonPress 1 10 20,
     blankEvent FocusIn, buttonEvent ButtonRelease 5 1 1, clientEvent 32 7] (by decide)

/-- C8: a press of native button 1, 2 or 3 at (x,y) stores (x,y) as the cursor
and appends exactly `MouseDown x y b`, with b left, middle, right in this order;
a press of any other button changes nothing; a release of button 1, 2 or 3
stores the cursor and appends exactly `MouseUp x y b` with the same mapping.
Hence a left press and then a left release at (10,20) append
`MouseDown 10 20 Left` and then `MouseUp 10 20 Left`. -/
theorem C8_button_press_release (w : Window) (event : XEvent) :
    (event.type = ButtonPress →
      (event.xbutton.button = 1 → WindowEvent w event =
        { w with mousex := event.xbutton.x, mousey := event.xbutton.y,
                 events := w.events ++
                   [Event.MouseDown event.xbutton.x event.xbutton.y MouseButton.Left] })
      ∧ (event.xbutton.button = 2 → WindowEvent w event =
        { w with mousex := event.xbutton.x, mousey := event.xbutton.y,
                 events := w.events ++
                   [Event.MouseDown event.xbutton.x event.xbutton.y MouseButton.Middle] })
      ∧ (event.xbutton.button = 3 → WindowEvent w event =
        { w with mousex := event.xbutton.x, mousey := event.xbutton.y,
                 events := w.events ++
                   [Event.MouseDown event.xbutton.x event.xbutton.y MouseButton.Right] })
      ∧ (event.xbutton.button ≠ 1 ∧ event.xbutton.button ≠ 2 ∧ event.xbutton.button ≠ 3 →
          WindowEvent w event = w))
    ∧ (event.type = ButtonRelease →
      (event.xbutton.button = 1 → WindowEvent w event =
        { w with mousex := event.xbutton.x, mousey := event.xbutton.y,
                 events := w.events ++
                   [Event.MouseUp event.xbutton.x event.xbutton.y MouseButton.Left] })
      ∧ (event.xbutton.button = 2 → WindowEvent w event =
        { w with mousex := event.xbutton.x, mousey := event.xbutton.y,
                 events := w.events ++
                   [Event.MouseUp event.xbutton.x event.xbutton.y MouseButton.Middle] })
      ∧ (event.xbutton.button = 3 → WindowEvent w event =
        { w with mousex := event.xbutton.x, mousey := event.xbutton.y,
                 events := w.events ++
                   [Event.MouseUp event.xbutton.x event.xbutton.y MouseButton.Right] }))
    ∧ (∀ release : XEvent,
        event.type = ButtonPress → event.xbutton = ⟨10, 20, 1⟩ →
        release.type = ButtonRelease → release.xbutton = ⟨10, 20, 1⟩ →
        (translateAll w [event, release]).events
          = w.events ++ [Event.MouseDown 10 20 MouseButton.Left,
                          Event.MouseUp 10 20 MouseButton.Left]) := by
  refine ⟨?_, ?_, ?_⟩
  · intro ht
    rw [WindowEvent_buttonPress w event ht]
    refine ⟨?_, ?_, ?_, ?_⟩
    · intro hb
      simp [buttonPress, hb, Button1, Button2, Button3, pushEvent]
    · intro hb
      simp [buttonPress, hb, Button1, Button2, Button3, pushEvent]
    · intro hb
      simp [buttonPress, hb, Button1, Button2, Button3, pushEvent]
    · rintro ⟨h1, h2, h3⟩
      simp [buttonPress, h1, h2, h3, Button1, Button2, Button3, pushEvent]
  · intro ht
    rw [WindowEvent_buttonRelease w event ht]
    refine ⟨?_, ?_, ?_⟩
    · intro hb
      simp [buttonRelease, hb, Button1, Button2, Button3, pushEvent]
    · intro hb
      simp [buttonRelease, hb, Button1, Button2, Button3, pushEvent]
    · intro hb
      simp [buttonRelease, hb, Button1, Button2, Button3, pushEvent]
  · intro release ht hb ht2 hb2
    rw [translateAll_cons, translateAll_cons, translateAll_nil,
      WindowEvent_buttonRelease _ release ht2, WindowEvent_buttonPress w event ht]
    simp [buttonPress, buttonRelease, hb, hb2, Button1, Button2, Button3, pushEvent]

/-- C8, the scenario: a left press at (10,20) and then a left release at (10,20). -/
theorem C8_button_press_release_witness :
    (translateAll (sampleWindow [])
      [buttonEvent ButtonPress 1 10 20, buttonEvent ButtonRelease 1 10 20]).events
      = [Event.MouseDown 10 20 MouseButton.Left, Event.MouseUp 10 20 MouseButton.Left] :=
  (C8_button_press_release (sampleWindow []) (buttonEvent ButtonPress 1 10 20)).2.2
    (buttonEvent ButtonRelease 1 10 20) rfl rfl rfl rfl

/-- C9: a release of native button 4 at (x,y) stores (x,y) as the cursor and
appends exactly one `MouseWheel x y 1`; a release of button 5 stores the cursor
and appends exactly one `MouseWheel x y (-1)`; a press of button 4 or 5 changes
nothing, neither the queue nor the window. -/
theorem C9_wheel (w : Window) (event : XEvent) :
    (event.type = ButtonRelease → event.xbutton.button = 4 →
      WindowEvent w event =
        { w with mousex := event.xbutton.x, mousey := event.xbutton.y,
                 events := w.events ++ [Event.MouseWheel event.xbutton.x event.xbutton.y 1] })
    ∧ (event.type = ButtonRelease → event.xbutton.button = 5 →
      WindowEvent w event =
        { w with mousex := event.xbutton.x, mousey := event.xbutton.y,
                 events := w.events ++ [Event.MouseWheel event.xbutton.x event.xbutton.y (-1)] })
    ∧ (event.type = ButtonPress → event.xbutton.button = 4 ∨ event.xbutton.button = 5 →
      WindowEvent w event = w) := by
  refine ⟨?_, ?_, ?_⟩
  · intro ht hb
    rw [WindowEvent_buttonRelease w event ht]
    simp [buttonRelease, hb, Button1, Button2, Button3, Button4, Button5, pushEvent]
  · intro ht hb
    rw [WindowEvent_buttonRelease w event ht]
    simp [buttonRelease, hb, Button1, Button2, Button3, Button4, Button5, pushEvent]
  · intro ht hb
    rw [WindowEvent_buttonPress w event ht]
    rcases hb with hb | hb <;> simp [buttonPress, hb, Button1, Button2, Button3, pushEvent]

/-- C9, the scenario: a release of wheel button 4 at (5,5) gives
`MouseWheel 5 5 1`. -/
theorem C9_wheel_witness :
    WindowEvent (sampleWindow []) (buttonEvent ButtonRelease 4 5 5)
      = { sampleWindow [] with mousex := 5, mousey := 5, events := [Event.MouseWheel 5 5 1] } :=
  (C9_wheel (sampleWindow []) (buttonEvent ButtonRelease 4 5 5)).1 rfl rfl

/-- The focus flag after a sequence of native events whose last focus
notification is known. -/
theorem translateAll_focus (es : List XEvent) :
    ∀ (w : Window) (last : XEvent), (es.filter isFocusNotification).getLast? = some last →
      ((translateAll w es).focus = true ↔ last.type = FocusIn) := by
  induction es using List.reverseRecOn with
  | nil => intro w last h; simp at h
  | append_singleton l a ih =>
    intro w last h
    rw [translateAll_append, translateAll_cons, translateAll_nil]
    by_cases hin : a.type = FocusIn
    · have hfa : isFocusNotification a = true := by simp [isFocusNotification, hin]
      rw [List.filter_append] at h
      simp [hfa] at h
      subst h
      rw [WindowEvent_focusIn _ a hin]
      simp [hin]
    · by_cases hout : a.type = FocusOut
      · have hfa : isFocusNotification a = true := by simp [isFocusNotification, hout]
        rw [List.filter_append] at h
        simp [hfa] at h
        subst h
        rw [WindowEvent_focusOut _ a hout]
        simp [hin]
      · have hfa : isFocusNotification a = false := by simp [isFocusNotification, hin, hout]
        rw [List.filter_append] at h
        simp [hfa] at h
        rw [WindowEvent_focus_of_not_focus _ a hin hout]
        exact ih w last (by simpa using h)

/-- C10: a focus-gained notification sets the focus flag and appends exactly one
`Focus`; a focus-lost notification clears the focus flag and appends exactly one
`Blur`; both whatever the flag and the queue were, and nothing else changes.
Hence after a sequence of native events with at least one focus notification the
flag is set exactly when the last focus notification was focus-gained. -/
theorem C10_focus (w : Window) (event : XEvent) :
    (event.type = FocusIn →
      WindowEvent w event = { w with focus := true, events := w.events ++ [Event.Focus] })
    ∧ (event.type = FocusOut →
      WindowEvent w event = { w with focus := false, events := w.events ++ [Event.Blur] })
    ∧ (∀ (es : List XEvent) (last : XEvent),
        (es.filter isFocusNotification).getLast? = some last →
        ((translateAll w es).focus = true ↔ last.type = FocusIn)) :=
  ⟨WindowEvent_focusIn w event, WindowEvent_focusOut w event,
    fun es last h => translateAll_focus es w last h⟩

/-- C10, an instance: focus gained with the flag already set and a `Focus` at the
end of the queue appends a second `Focus`; after focus gained, a motion, focus
lost and a left press the flag is clear. -/
theorem C10_focus_witness :
    WindowEvent { sampleWindow [Event.Focus] with focus := true } (blankEvent FocusIn)
        = { sampleWindow [Event.Focus, Event.Focus] with focus := true }
    ∧ WindowEvent (sampleWindow [Event.Blur]) (blankEvent FocusOut)
        = sampleWindow [Event.Blur, Event.Blur]
    ∧ (translateAll (sampleWindow [])
        [blankEvent FocusIn, motionEvent 1 2, blankEvent FocusOut,
         buttonEvent ButtonPress 1 3 4]).focus = false :=
  ⟨(C10_focus { sampleWindow [Event.Focus] with focus := true } (blankEvent FocusIn)).1 rfl,
   (C10_focus (sampleWindow [Event.Blur]) (blankEvent FocusOut)).2.1 rfl,
   by
    have h := (C10_focus (sampleWindow []) (blankEvent FocusIn)).2.2
      [blankEvent FocusIn, motionEvent 1 2, blankEvent FocusOut, buttonEvent ButtonPress 1 3 4]
      (blankEvent FocusOut) (by decide)
    simpa [blankEvent, FocusIn, FocusOut] using h⟩

/-- A configure notification that reports the size and the position the window
already holds, translated. -/
theorem WindowEvent_configure_same (w : Window) (event : XEvent)
    (ht : event.type = ConfigureNotify)
    (hs : configureSize event = (w.width, w.height))
    (hx : event.xconfigure.x = w.x) (hy : event.xconfigure.y = w.y) :
    WindowEvent w event = w := by
  simp only [configureSize, Prod.mk.injEq] at hs
  simp [WindowEvent, translateSwitch, ht, ConfigureNotify, ClientMessage, configureNotify, hs.1,
    hs.2, hx, hy, pushEvent]

/-- C11: a configure notification whose width, height, x and y are the size and
the position the window holds leaves the whole window and the whole queue as
they were: no event is appended and the last queued event is not touched. -/
theorem C11_noop_geometry_notification (w : Window) (event : XEvent)
    (ht : event.type = ConfigureNotify)
    (hw : toUint event.xconfigure.width = w.width)
    (hh : toUint event.xconfigure.height = w.height)
    (hx : event.xconfigure.x = w.x) (hy : event.xconfigure.y = w.y) :
    WindowEvent w event = w ∧ (WindowEvent w event).events = w.events := by
  have h : WindowEvent w event = w :=
    WindowEvent_configure_same w event ht (by simp [configureSize, hw, hh]) hx hy
  rw [h]
  exact ⟨rfl, rfl⟩

/-- C11, an instance: the sample window of size 800x600 at (0,0), with a `Resize`
and with a `Move` at the end of the queue. -/
theorem C11_noop_geometry_notification_witness :
    WindowEvent (sampleWindow [Event.Focus, Event.Resize 800 600]) (configureEvent 0 0 800 600)
        = sampleWindow [Event.Focus, Event.Resize 800 600]
    ∧ WindowEvent (sampleWindow [Event.Move 0 0]) (configureEvent 0 0 800 600)
        = sampleWindow [Event.Move 0 0] :=
  ⟨(C11_noop_geometry_notification (sampleWindow [Event.Focus, Event.Resize 800 600])
      (configureEvent 0 0 800 600) rfl (by decide) (by decide) rfl rfl).1,
   (C11_noop_geometry_notification (sampleWindow [Event.Move 0 0])
      (configureEvent 0 0 800 600) rfl (by decide) (by decide) rfl rfl).1⟩

/-- C12: native events that the translator does not recognize are ignored. A
key press or release, an event of a type outside client message, configure,
focus in, focus out, button press, button release and motion, a client message
whose format is not 32 or whose first data word is not the close atom, a press
of a button other than 1 to 3 and a release of a button other than 1 to 5 each
leave the window and its queue exactly as they were. -/
theorem C12_unrecognized_ignored (w : Window) (event : XEvent) :
    (event.type = KeyPress ∨ event.type = KeyRelease → WindowEvent w event = w)
    ∧ (event.type ≠ ClientMessage ∧ event.type ≠ ConfigureNotify ∧ event.type ≠ FocusIn
        ∧ event.type ≠ FocusOut ∧ event.type ≠ ButtonPress ∧ event.type ≠ ButtonRelease
        ∧ event.type ≠ MotionNotify → WindowEvent w event = w)
    ∧ (event.type = ClientMessage →
        event.xclient.format ≠ 32 ∨ event.xclient.data_l0 ≠ toLong w.close →
        WindowEvent w event = w)
    ∧ (event.type = ButtonPress →
        event.xbutton.button ≠ 1 ∧ event.xbutton.button ≠ 2 ∧ event.xbutton.button ≠ 3 →
        WindowEvent w event = w)
    ∧ (event.type = ButtonRelease →
        event.xbutton.button ≠ 1 ∧ event.xbutton.button ≠ 2 ∧ event.xbutton.button ≠ 3
          ∧ event.xbutton.button ≠ 4 ∧ event.xbutton.button ≠ 5 →
        WindowEvent w event = w) := by
  refine ⟨?_, ?_, ?_, ?_, ?_⟩
  · intro hk
    apply WindowEvent_default w event <;>
      rcases hk with hk | hk <;> rw [hk] <;> decide
  · rintro ⟨h1, h2, h3, h4, h5, h6, h7⟩
    exact WindowEvent_default w event h1 h2 h3 h4 h5 h6 h7
  · intro ht hne
    rw [WindowEvent_clientMessage w event ht, if_neg]
    rintro ⟨hf, hd⟩
    rcases hne with hne | hne
    · exact hne hf
    · exact hne hd
  · rintro ht ⟨h1, h2, h3⟩
    rw [WindowEvent_buttonPress w event ht]
    simp [buttonPress, h1, h2, h3, Button1, Button2, Button3, pushEvent]
  · rintro ht ⟨h1, h2, h3, h4, h5⟩
    rw [WindowEvent_buttonRelease w event ht]
    simp [buttonRelease, h1, h2, h3, h4, h5, Button1, Button2, Button3, Button4, Button5,
      pushEvent]

/-- C12, an instance: a key press, an event of type 12, a client message with
another atom, a press of button 4 and a release of button 6, each for the sample
window with a queued `Focus`. -/
theorem C12_unrecognized_ignored_witness :
    WindowEvent (sampleWindow [Event.Focus]) (blankEvent KeyPress) = sampleWindow [Event.Focus]
    ∧ WindowEvent (sampleWindow [Event.Focus]) (blankEvent 12) = sampleWindow [Event.Focus]
    ∧ WindowEvent (sampleWindow [Event.Focus]) (clientEvent 32 8) = sampleWindow [Event.Focus]
    ∧ WindowEvent (sampleWindow [Event.Focus]) (buttonEvent ButtonPress 4 1 1)
        = sampleWindow [Event.Focus]
    ∧ WindowEvent (sampleWindow [Event.Focus]) (buttonEvent ButtonRelease 6 1 1)
        = sampleWindow [Event.Focus] :=
  ⟨(C12_unrecognized_ignored (sampleWindow [Event.Focus]) (blankEvent KeyPress)).1
      (Or.inl rfl),
   (C12_unrecognized_ignored (sampleWindow [Event.Focus]) (blankEvent 12)).2.1 (by decide),
   (C12_unrecognized_ignored (sampleWindow [Event.Focus]) (clientEvent 32 8)).2.2.1 rfl
      (Or.inr (by decide)),
   (C12_unrecognized_ignored (sampleWindow [Event.Focus])
      (buttonEvent ButtonPress 4 1 1)).2.2.2.1 rfl (by decide),
   (C12_unrecognized_ignored (sampleWindow [Event.Focus])
      (buttonEvent ButtonRelease 6 1 1)).2.2.2.2 rfl (by decide)⟩

/-- `SetPos` on a window whose `isOpen` is false returns at its first line. -/
theorem SetPos_closed (w : Window) (h : w.isOpen = false) (x y : Int) : SetPos w x y = w := by
  simp [SetPos, h]

/-- `SetSize` on a window whose `isOpen` is false returns at its first line. -/
theorem SetSize_closed (w : Window) (h : w.isOpen = false) (width height : Nat) :
    SetSize w width height = w := by
  simp [SetSize, h]

/-- `SetTitle` on a window whose `isOpen` is false returns at its first line. -/
theorem SetTitle_closed (w : Window) (h : w.isOpen = false) (title : String) :
    SetTitle w title = w := by
  simp [SetTitle, h]

/-- `SetVisible` on a window whose `isOpen` is false returns at its first line. -/
theorem SetVisible_closed (w : Window) (h : w.isOpen = false) (visible : Bool) :
    SetVisible w visible = w := by
  simp [SetVisible, h]

/-- `Close` sends the destroy request and the flush whatever `isOpen` is. -/
theorem Close_requests (w : Window) :
    (Close w).display.requests
      = w.display.requests ++ [XRequest.DestroyWindow w.window, XRequest.Flush] := by
  simp [Close, XFlush, XDestroyWindow, Display.send]

/-- C13, the code at the failing input: `Close` on a window whose `isOpen` is
already false sends the destroy request and the flush, so the trace of requests
changes; the same right after a close request was translated. `SetSize`,
`SetPos` and `SetVisible` on the same window send nothing and leave it as it
was. -/
theorem C13_close_on_closed_window_sends_requests :
    closedWindow.isOpen = false
    ∧ Close closedWindow
        = { closedWindow with
              display := ⟨[], [XRequest.DestroyWindow 1, XRequest.Flush]⟩ }
    ∧ (Close closedWindow).display.requests ≠ closedWindow.display.requests
    ∧ (WindowEvent (sampleWindow []) (clientEvent 32 7)).isOpen = false
    ∧ (Close (WindowEvent (sampleWindow []) (clientEvent 32 7))).display.requests
        = [XRequest.DestroyWindow 1, XRequest.Flush]
    ∧ SetSize closedWindow 640 480 = closedWindow
    ∧ SetPos closedWindow 5 7 = closedWindow
    ∧ SetVisible closedWindow true = closedWindow := by
  refine ⟨rfl, rfl, ?_, rfl, rfl, rfl, rfl, rfl⟩
  rw [Close_requests]
  simp [closedWindow, sampleWindow]

/-- C14, a counterexample: `SetTitle` on a window whose `isOpen` is false sends no
rename request and returns the window as it was. -/
theorem C14_setTitle_guarded_counterexample :
    closedWindow.isOpen = false
    ∧ SetTitle closedWindow "title" = closedWindow
    ∧ (SetTitle closedWindow "title").display.requests = []
    ∧ XRequest.StoreName closedWindow.window "title"
        ∉ (SetTitle closedWindow "title").display.requests := by
  refine ⟨rfl, rfl, rfl, ?_⟩
  rw [SetTitle_closed closedWindow rfl]
  simp [closedWindow, sampleWindow]

/-- C14, amended: `SetTitle` has the same guard on `isOpen` as `SetPos`, `SetSize` and
`SetVisible`. On a window whose `isOpen` is true it sends the rename request
with the given text for the window's handle and changes nothing else; on a
window whose `isOpen` is false it sends nothing and leaves the window as it
was. -/
theorem C14_setTitle_guarded (w : Window) (title : String) :
    (w.isOpen = true →
      SetTitle w title
          = { w with display :=
                { w.display with
                    requests := w.display.requests ++ [XRequest.StoreName w.window title] } }
      ∧ (SetTitle w title).display.requests
          = w.display.requests ++ [XRequest.StoreName w.window title])
    ∧ (w.isOpen = false →
      SetTitle w title = w ∧ (SetTitle w title).display.requests = w.display.requests) := by
  constructor
  · intro h
    simp [SetTitle, h, XStoreName, Display.send]
  · intro h
    rw [SetTitle_closed w h]
    exact ⟨rfl, rfl⟩

/-- C14, an instance of the amended statement: the open sample window sends the
rename request, the closed one does not. -/
theorem C14_setTitle_guarded_witness :
    (SetTitle (sampleWindow []) "title").display.requests = [XRequest.StoreName 1 "title"]
    ∧ SetTitle closedWindow "title" = closedWindow :=
  ⟨((C14_setTitle_guarded (sampleWindow []) "title").1 rfl).2,
   ((C14_setTitle_guarded closedWindow "title").2 rfl).1⟩

theorem Event.eq_Resize_of_isResize (e : Event) (h : e.isResize = true) :
    ∃ a b, e = Event.Resize a b := by
  cases e <;> simp [Event.isResize] at h
  exact ⟨_, _, rfl⟩

theorem Event.eq_Move_of_isMove (e : Event) (h : e.isMove = true) :
    ∃ a b, e = Event.Move a b := by
  cases e <;> simp [Event.isMove] at h
  exact ⟨_, _, rfl⟩

/-- The event that the specification assigns to a native event other than a
configure notification is never a geometry event. -/
theorem normalizedOf_not_geometry (close : Nat) (e : XEvent) (ev : Event)
    (h : normalizedOf close e = some ev) : ev.isGeometry = false := by
  unfold normalizedOf at h
  split_ifs at h
  all_goals first
    | (cases h; rfl)
    | (split at h <;> first | (cases h; rfl) | (exact absurd h (by simp)))

/-- The shape of the queue after one translation: it is as it was, or one event
was appended (a geometry event only to an empty queue, by a configure
notification), or the last event, a `Resize`, got the new size of a configure
notification, or the last event, a `Move`, got its new position. -/
theorem WindowEvent_events_cases (w : Window) (event : XEvent) :
    (WindowEvent w event).events = w.events
    ∨ (∃ e, (WindowEvent w event).events = w.events ++ [e]
        ∧ (e.isGeometry = true → w.events = [] ∧ event.type = ConfigureNotify))
    ∨ (event.type = ConfigureNotify ∧ configureSize event ≠ (w.width, w.height)
        ∧ ∃ p a b, w.events = p ++ [Event.Resize a b]
          ∧ (WindowEvent w event).events
              = p ++ [Event.Resize (configureSize event).1 (configureSize event).2])
    ∨ (event.type = ConfigureNotify ∧ configureSize event = (w.width, w.height)
        ∧ (event.xconfigure.x ≠ w.x ∨ event.xconfigure.y ≠ w.y)
        ∧ ∃ p a b, w.events = p ++ [Event.Move a b]
          ∧ (WindowEvent w event).events
              = p ++ [Event.Move event.xconfigure.x event.xconfigure.y]) := by
  by_cases ht : event.type = ConfigureNotify
  · by_cases hs : configureSize event = (w.width, w.height)
    · by_cases hp : event.xconfigure.x ≠ w.x ∨ event.xconfigure.y ≠ w.y
      · rcases List.eq_nil_or_concat w.events with hq | ⟨p, last, hq⟩
        · right; left
          refine ⟨Event.Move event.xconfigure.x event.xconfigure.y, ?_, fun _ => ⟨hq, ht⟩⟩
          rw [WindowEvent_move_empty w event ht hs hp hq, hq]
          rfl
        · rw [List.concat_eq_append] at hq
          by_cases hl : last.isMove = true
          · obtain ⟨a, b, rfl⟩ := Event.eq_Move_of_isMove last hl
            right; right; right
            refine ⟨ht, hs, hp, p, a, b, hq, ?_⟩
            rw [WindowEvent_move_coalesce w event p a b ht hs hp hq]
          · left
            rw [WindowEvent_move_dropped w event p last ht hs hp hq (by simpa using hl)]
      · left
        push_neg at hp
        rw [WindowEvent_configure_same w event ht hs hp.1 hp.2]
    · rcases List.eq_nil_or_concat w.events with hq | ⟨p, last, hq⟩
      · right; left
        refine ⟨Event.Resize (configureSize event).1 (configureSize event).2, ?_,
          fun _ => ⟨hq, ht⟩⟩
        rw [WindowEvent_resize_empty w event ht hs hq, hq]
        rfl
      · rw [List.concat_eq_append] at hq
        by_cases hl : last.isResize = true
        · obtain ⟨a, b, rfl⟩ := Event.eq_Resize_of_isResize last hl
          right; right; left
          refine ⟨ht, hs, p, a, b, hq, ?_⟩
          rw [WindowEvent_resize_coalesce w event p a b ht hs hq]
        · left
          rw [WindowEvent_resize_dropped w event p last ht hs hq (by simpa using hl)]
  · have hev := WindowEvent_events_of_not_configure w event ht
    cases hn : normalizedOf w.close event with
    | none =>
      left
      rw [hev, hn]
      simp
    | some e =>
      right; left
      refine ⟨e, ?_, fun hg => ?_⟩
      · rw [hev, hn]
        rfl
      · rw [normalizedOf_not_geometry w.close event e hn] at hg
        exact absurd hg (by decide)

/-- C16: a size change takes priority over a position change. A configure
notification whose width or height differs from the size held leaves the
position held as it was, also when its x or y differs from it; the `Move` events
of the queue are the same, at the same places, before and after (none is
appended, none is updated); and the x and y of the notification have no effect
at all on the result. -/
theorem C16_size_change_priority (w : Window) (event : XEvent)
    (ht : event.type = ConfigureNotify)
    (hs : toUint event.xconfigure.width ≠ w.width ∨ toUint event.xconfigure.height ≠ w.height) :
    (WindowEvent w event).x = w.x ∧ (WindowEvent w event).y = w.y
    ∧ (∀ (i : Nat) (a b : Int),
        (WindowEvent w event).events[i]? = some (Event.Move a b)
          ↔ w.events[i]? = some (Event.Move a b))
    ∧ (∀ x y : Int,
        WindowEvent w { event with xconfigure := { event.xconfigure with x := x, y := y } }
          = WindowEvent w event) := by
  have hs1 : configureSize event ≠ (w.width, w.height) := by
    intro hc
    simp only [configureSize, Prod.mk.injEq] at hc
    rcases hs with hs | hs
    · exact hs hc.1
    · exact hs hc.2
  rcases List.eq_nil_or_concat w.events with hq | ⟨p, last, hq⟩
  · refine ⟨?_, ?_, ?_, ?_⟩
    · rw [WindowEvent_resize_empty w event ht hs1 hq]
    · rw [WindowEvent_resize_empty w event ht hs1 hq]
    · intro i a b
      rw [WindowEvent_resize_empty w event ht hs1 hq, hq]
      cases i <;> simp
    · intro x y
      rw [WindowEvent_resize_empty w event ht hs1 hq,
        WindowEvent_resize_empty w _ (show ({ event with xconfigure :=
          { event.xconfigure with x := x, y := y } } : XEvent).type = ConfigureNotify from ht)
          hs1 hq]
      rfl
  · rw [List.concat_eq_append] at hq
    by_cases hl : last.isResize = true
    · obtain ⟨a0, b0, rfl⟩ := Event.eq_Resize_of_isResize last hl
      refine ⟨?_, ?_, ?_, ?_⟩
      · rw [WindowEvent_resize_coalesce w event p a0 b0 ht hs1 hq]
      · rw [WindowEvent_resize_coalesce w event p a0 b0 ht hs1 hq]
      · intro i a b
        rw [WindowEvent_resize_coalesce w event p a0 b0 ht hs1 hq, hq]
        simp only [List.getElem?_append]
        split_ifs
        · rfl
        · cases i - p.length <;> simp
      · intro x y
        rw [WindowEvent_resize_coalesce w event p a0 b0 ht hs1 hq,
          WindowEvent_resize_coalesce w _ p a0 b0 (show ({ event with xconfigure :=
            { event.xconfigure with x := x, y := y } } : XEvent).type = ConfigureNotify from ht)
            hs1 hq]
        rfl
    · have hl2 : last.isResize = false := by simpa using hl
      refine ⟨?_, ?_, ?_, ?_⟩
      · rw [WindowEvent_resize_dropped w event p last ht hs1 hq hl2]
      · rw [WindowEvent_resize_dropped w event p last ht hs1 hq hl2]
      · intro i a b
        rw [WindowEvent_resize_dropped w event p last ht hs1 hq hl2]
      · intro x y
        rw [WindowEvent_resize_dropped w event p last ht hs1 hq hl2,
          WindowEvent_resize_dropped w _ p last (show ({ event with xconfigure :=
            { event.xconfigure with x := x, y := y } } : XEvent).type = ConfigureNotify from ht)
            hs1 hq hl2]
        rfl

/-- C16, an instance: the sample window at (0,0) of size 800x600 with a queued
`Move`, and a configure notification of size 900x650 at (5,7). -/
theorem C16_size_change_priority_witness :
    (WindowEvent (sampleWindow [Event.Move 0 0]) (configureEvent 5 7 900 650)).x = 0
    ∧ (WindowEvent (sampleWindow [Event.Move 0 0]) (configureEvent 5 7 900 650)).y = 0
    ∧ ((WindowEvent (sampleWindow [Event.Move 0 0]) (configureEvent 5 7 900 650)).events[0]?
          = some (Event.Move 0 0)
        ↔ (sampleWindow [Event.Move 0 0]).events[0]? = some (Event.Move 0 0)) :=
  have h := C16_size_change_priority (sampleWindow [Event.Move 0 0])
    (configureEvent 5 7 900 650) rfl (Or.inl (by decide))
  ⟨h.1, h.2.1, h.2.2.1 0 0 0⟩

/-- C17: the translator only appends at the end of the queue or rewrites its last
element. After one translation the queue is as it was, or it is the old queue
with one event appended, or (configure notification with a changed size, last
element a `Resize`) the old queue with the width and height of its last element
replaced, or (configure notification with the size unchanged and a changed
position, last element a `Move`) the old queue with the x and y of its last
element replaced. So the length grows by 0 or 1 and every element but the last
stays what and where it was. -/
theorem C17_append_or_rewrite_last (w : Window) (event : XEvent) :
    ((WindowEvent w event).events = w.events
      ∨ (∃ e, (WindowEvent w event).events = w.events ++ [e])
      ∨ (event.type = ConfigureNotify ∧ configureSize event ≠ (w.width, w.height)
          ∧ ∃ p a b, w.events = p ++ [Event.Resize a b]
            ∧ (WindowEvent w event).events
                = p ++ [Event.Resize (configureSize event).1 (configureSize event).2])
      ∨ (event.type = ConfigureNotify ∧ configureSize event = (w.width, w.height)
          ∧ (event.xconfigure.x ≠ w.x ∨ event.xconfigure.y ≠ w.y)
          ∧ ∃ p a b, w.events = p ++ [Event.Move a b]
            ∧ (WindowEvent w event).events
                = p ++ [Event.Move event.xconfigure.x event.xconfigure.y]))
    ∧ ((WindowEvent w event).events.length = w.events.length
        ∨ (WindowEvent w event).events.length = w.events.length + 1)
    ∧ (∀ i : Nat, i + 1 < w.events.length →
        (WindowEvent w event).events[i]? = w.events[i]?) := by
  rcases WindowEvent_events_cases w event with h | ⟨e, h, _⟩ | ⟨ht, hs, p, a, b, hq, h⟩
      | ⟨ht, hs, hp, p, a, b, hq, h⟩
  · exact ⟨Or.inl h, Or.inl (by rw [h]), fun i _ => by rw [h]⟩
  · refine ⟨Or.inr (Or.inl ⟨e, h⟩), Or.inr (by rw [h]; simp), fun i hi => ?_⟩
    rw [h, List.getElem?_append_left (by omega)]
  · refine ⟨Or.inr (Or.inr (Or.inl ⟨ht, hs, p, a, b, hq, h⟩)), Or.inl (by rw [h, hq]; simp),
      fun i hi => ?_⟩
    rw [hq, List.length_append, List.length_singleton] at hi
    rw [h, hq, List.getElem?_append_left (by omega), List.getElem?_append_left (by omega)]
  · refine ⟨Or.inr (Or.inr (Or.inr ⟨ht, hs, hp, p, a, b, hq, h⟩)),
      Or.inl (by rw [h, hq]; simp), fun i hi => ?_⟩
    rw [hq, List.length_append, List.length_singleton] at hi
    rw [h, hq, List.getElem?_append_left (by omega), List.getElem?_append_left (by omega)]

/-- C17, an instance: a motion notification appends behind a queued `Resize`
without touching it, and a configure notification with a new size rewrites the
last element, a `Resize`, and nothing before it. -/
theorem C17_append_or_rewrite_last_witness :
    ((WindowEvent (sampleWindow [Event.Focus, Event.Blur, Event.Resize 800 600])
        (motionEvent 1 2)).events[1]? = some Event.Blur)
    ∧ ((WindowEvent (sampleWindow [Event.Focus, Event.Blur, Event.Resize 800 600])
        (configureEvent 0 0 900 650)).events[1]? = some Event.Blur) :=
  ⟨(C17_append_or_rewrite_last (sampleWindow [Event.Focus, Event.Blur, Event.Resize 800 600])
      (motionEvent 1 2)).2.2 1 (by decide),
   (C17_append_or_rewrite_last (sampleWindow [Event.Focus, Event.Blur, Event.Resize 800 600])
      (configureEvent 0 0 900 650)).2.2 1 (by decide)⟩

/-- Behind the first element of the old queue there is no geometry event, and
the same holds for the queue after one translation. -/
theorem WindowEvent_geometry_at_head (w : Window) (event : XEvent)
    (hinv : ∀ e ∈ w.events.tail, e.isGeometry = false) :
    ∀ e ∈ (WindowEvent w event).events.tail, e.isGeometry = false := by
  rcases WindowEvent_events_cases w event with h | ⟨e, h, hg⟩ | ⟨_, _, p, a, b, hq, h⟩
      | ⟨_, _, _, p, a, b, hq, h⟩
  · rw [h]
    exact hinv
  · rw [h]
    by_cases hq : w.events = []
    · rw [hq]
      simp
    · rw [List.tail_append_of_ne_nil hq]
      intro x hx
      rcases List.mem_append.mp hx with hx | hx
      · exact hinv x hx
      · rw [List.mem_singleton] at hx
        subst hx
        cases hxg : x.isGeometry with
        | false => rfl
        | true => exact absurd (hg hxg).1 hq
  · rw [h]
    by_cases hp : p = []
    · subst hp
      simp
    · have hmem : Event.Resize a b ∈ w.events.tail := by
        rw [hq, List.tail_append_of_ne_nil hp]
        simp
      exact absurd (hinv _ hmem) (by simp [Event.isGeometry, Event.isResize])
  · rw [h]
    by_cases hp : p = []
    · subst hp
      simp
    · have hmem : Event.Move a b ∈ w.events.tail := by
        rw [hq, List.tail_append_of_ne_nil hp]
        simp
      exact absurd (hinv _ hmem) (by simp [Event.isGeometry, Event.isMove])

theorem translateAll_geometry_at_head (es : List XEvent) (w : Window)
    (hinv : ∀ e ∈ w.events.tail, e.isGeometry = false) :
    ∀ e ∈ (translateAll w es).events.tail, e.isGeometry = false := by
  induction es generalizing w with
  | nil => exact hinv
  | cons e es ih =>
    rw [translateAll_cons]
    exact ih _ (WindowEvent_geometry_at_head w e hinv)

/-- The mutators do not touch the queue. -/
theorem mutators_events (w : Window) :
    (∀ x y, (SetPos w x y).events = w.events)
    ∧ (∀ width height, (SetSize w width height).events = w.events)
    ∧ (∀ title, (SetTitle w title).events = w.events)
    ∧ (∀ visible, (SetVisible w visible).events = w.events)
    ∧ (Close w).events = w.events := by
  refine ⟨?_, ?_, ?_, ?_, rfl⟩
  · intro x y
    simp only [SetPos]
    split_ifs <;> rfl
  · intro width height
    simp only [SetSize]
    split_ifs <;> rfl
  · intro title
    simp only [SetTitle]
    split_ifs <;> rfl
  · intro visible
    simp only [SetVisible]
    split_ifs <;> rfl

theorem Operation.run_geometry_at_head (w : Window) (op : Operation)
    (hinv : ∀ e ∈ w.events.tail, e.isGeometry = false) :
    ∀ e ∈ (Operation.run w op).events.tail, e.isGeometry = false := by
  cases op with
  | translate event => exact WindowEvent_geometry_at_head w event hinv
  | arrive events => exact hinv
  | pollEvent =>
    simp only [Operation.run, GetEvent_eq]
    intro e he
    exact translateAll_geometry_at_head _ w hinv e (List.mem_of_mem_tail he)
  | setPosition x y =>
    simp only [Operation.run, (mutators_events w).1]
    exact hinv
  | setSize width height =>
    simp only [Operation.run, (mutators_events w).2.1]
    exact hinv
  | setTitle title =>
    simp only [Operation.run, (mutators_events w).2.2.1]
    exact hinv
  | setVisible visible =>
    simp only [Operation.run, (mutators_events w).2.2.2.1]
    exact hinv
  | close => exact hinv

theorem runOperations_geometry_at_head (ops : List Operation) (w : Window)
    (hinv : ∀ e ∈ w.events.tail, e.isGeometry = false) :
    ∀ e ∈ (runOperations w ops).events.tail, e.isGeometry = false := by
  induction ops generalizing w with
  | nil => exact hinv
  | cons op ops ih => exact ih _ (Operation.run_geometry_at_head w op hinv)

/-- C15: geometry events sit only at the head of the queue. In the queue of a
window that started with an empty queue and went through any sequence of
translations, arrivals of native events, calls of `GetEvent` and calls of the
mutators, a `Resize` or `Move` can stand only at index 0; so the queue never
holds more than one geometry event, `Resize` and `Move` counted together. -/
theorem C15_geometry_only_at_head (w : Window) (ops : List Operation) (hq : w.events = []) :
    (∀ (i : Nat) (e : Event), (runOperations w ops).events[i]? = some e →
        e.isResize = true ∨ e.isMove = true → i = 0)
    ∧ ((runOperations w ops).events.filter
        (fun e => e.isResize || e.isMove)).length ≤ 1 := by
  have hinv := runOperations_geometry_at_head ops w (by rw [hq]; simp)
  constructor
  · intro i e hi hg
    cases i with
    | zero => rfl
    | succ k =>
      have hmem : e ∈ (runOperations w ops).events.tail := by
        rw [List.mem_iff_getElem?]
        exact ⟨k, by rw [List.getElem?_tail]; exact hi⟩
      have := hinv e hmem
      rcases hg with hg | hg <;> simp [Event.isGeometry, hg] at this
  · cases hr : (runOperations w ops).events with
    | nil => simp
    | cons first rest =>
      rw [hr] at hinv
      have hrest : rest.filter (fun e => e.isResize || e.isMove) = [] := by
        rw [List.filter_eq_nil_iff]
        intro a ha
        have := hinv a ha
        simpa [Event.isGeometry] using this
      rw [List.filter_cons]
      split_ifs <;> simp [hrest]

/-- C15, an instance: a motion and two configure notifications arrive, a call of
`GetEvent` translates them, a configure notification with a new position and a
focus notification are translated, and `GetEvent` is called again. -/
theorem C15_geometry_only_at_head_witness :
    ((runOperations (sampleWindow [])
        [Operation.arrive [motionEvent 1 2, configureEvent 0 0 900 650,
            configureEvent 0 0 910 650],
         Operation.pollEvent, Operation.translate (configureEvent 5 7 910 650),
         Operation.translate (blankEvent FocusIn), Operation.pollEvent]).events.filter
      (fun e => e.isResize || e.isMove)).length ≤ 1 :=
  (C15_geometry_only_at_head (sampleWindow [])
    [Operation.arrive [motionEvent 1 2, configureEvent 0 0 900 650,
        configureEvent 0 0 910 650],
     Operation.pollEvent, Operation.translate (configureEvent 5 7 910 650),
     Operation.translate (blankEvent FocusIn), Operation.pollEvent] rfl).2

/-- One translation never sets `isOpen`: a window whose `isOpen` is false keeps
it false. -/
theorem WindowEvent_isOpen_false (w : Window) (event : XEvent) (h : w.isOpen = false) :
    (WindowEvent w event).isOpen = false := by
  by_cases h1 : event.type = ClientMessage
  · rw [WindowEvent_clientMessage w event h1]
    split_ifs
    · rfl
    · exact h
  by_cases h2 : event.type = ConfigureNotify
  · rw [WindowEvent_configure w event h2]
    simp only [configureNotify]
    split_ifs <;> exact h
  by_cases h3 : event.type = FocusIn
  · rw [WindowEvent_focusIn w event h3]
    exact h
  by_cases h4 : event.type = FocusOut
  · rw [WindowEvent_focusOut w event h4]
    exact h
  by_cases h5 : event.type = ButtonPress
  · rw [WindowEvent_buttonPress w event h5]
    simp only [buttonPress]
    split_ifs <;> exact h
  by_cases h6 : event.type = ButtonRelease
  · rw [WindowEvent_buttonRelease w event h6]
    simp only [buttonRelease]
    split_ifs <;> exact h
  by_cases h7 : event.type = MotionNotify
  · rw [WindowEvent_motion w event h7]
    exact h
  · rw [WindowEvent_default w event h1 h2 h3 h4 h5 h6 h7]
    exact h

theorem translateAll_isOpen_false (es : List XEvent) (w : Window) (h : w.isOpen = false) :
    (translateAll w es).isOpen = false := by
  induction es generalizing w with
  | nil => exact h
  | cons e es ih =>
    rw [translateAll_cons]
    exact ih _ (WindowEvent_isOpen_false w e h)

theorem GetEvent_isOpen_false (w : Window) (h : w.isOpen = false) :
    (GetEvent w).1.isOpen = false := by
  rw [GetEvent_eq]
  exact translateAll_isOpen_false _ w h

theorem Operation.run_isOpen_false (w : Window) (op : Operation) (h : w.isOpen = false) :
    (Operation.run w op).isOpen = false := by
  cases op with
  | translate event => exact WindowEvent_isOpen_false w event h
  | arrive events => exact h
  | pollEvent => exact GetEvent_isOpen_false w h
  | setPosition x y =>
    simp only [Operation.run, SetPos_closed w h]
    exact h
  | setSize width height =>
    simp only [Operation.run, SetSize_closed w h]
    exact h
  | setTitle title =>
    simp only [Operation.run, SetTitle_closed w h]
    exact h
  | setVisible visible =>
    simp only [Operation.run, SetVisible_closed w h]
    exact h
  | close => rfl

theorem runOperations_isOpen_false (ops : List Operation) (w : Window) (h : w.isOpen = false) :
    (runOperations w ops).isOpen = false := by
  induction ops generalizing w with
  | nil => exact h
  | cons op ops ih => exact ih _ (Operation.run_isOpen_false w op h)

/-- C18: `isOpen` never goes back to true. From a window whose `isOpen` is false,
the translation of any native event, `GetEvent` with any events waiting on the
connection, `SetPos`, `SetSize`, `SetTitle`, `SetVisible` and `Close` each give a
window whose `isOpen` is false, and so does every sequence of these steps. -/
theorem C18_isOpen_monotonic (w : Window) (h : w.isOpen = false) :
    (∀ event, (WindowEvent w event).isOpen = false)
    ∧ (GetEvent w).1.isOpen = false
    ∧ (∀ x y, (SetPos w x y).isOpen = false)
    ∧ (∀ width height, (SetSize w width height).isOpen = false)
    ∧ (∀ title, (SetTitle w title).isOpen = false)
    ∧ (∀ visible, (SetVisible w visible).isOpen = false)
    ∧ (Close w).isOpen = false
    ∧ (∀ ops : List Operation, (runOperations w ops).isOpen = false) :=
  ⟨fun event => WindowEvent_isOpen_false w event h,
   GetEvent_isOpen_false w h,
   fun x y => Operation.run_isOpen_false w (Operation.setPosition x y) h,
   fun width height => Operation.run_isOpen_false w (Operation.setSize width height) h,
   fun title => Operation.run_isOpen_false w (Operation.setTitle title) h,
   fun visible => Operation.run_isOpen_false w (Operation.setVisible visible) h,
   rfl,
   fun ops => runOperations_isOpen_false ops w h⟩

/-- C18, an instance: the closed sample window after native events arrived and
were polled, a focus notification was translated and the mutators were called. -/
theorem C18_isOpen_monotonic_witness :
    (runOperations closedWindow
      [Operation.arrive [motionEvent 1 2, clientEvent 32 7], Operation.pollEvent,
       Operation.translate (blankEvent FocusIn), Operation.setVisible true,
       Operation.setSize 640 480, Operation.close, Operation.setPosition 1 1]).isOpen = false :=
  (C18_isOpen_monotonic closedWindow rfl).2.2.2.2.2.2.2
    [Operation.arrive [motionEvent 1 2, clientEvent 32 7], Operation.pollEvent,
     Operation.translate (blankEvent FocusIn), Operation.setVisible true,
     Operation.setSize 640 480, Operation.close, Operation.setPosition 1 1]

/-- The size after one translation: the size held before, or, for a configure
notification, the size it carries. -/
theorem WindowEvent_size (w : Window) (event : XEvent) :
    ((WindowEvent w event).width = w.width ∧ (WindowEvent w event).height = w.height)
    ∨ (event.type = ConfigureNotify
        ∧ (WindowEvent w event).width = toUint event.xconfigure.width
        ∧ (WindowEvent w event).height = toUint event.xconfigure.height) := by
  by_cases h1 : event.type = ClientMessage
  · left
    rw [WindowEvent_clientMessage w event h1]
    split_ifs <;> exact ⟨rfl, rfl⟩
  by_cases h2 : event.type = ConfigureNotify
  · rw [WindowEvent_configure w event h2]
    simp only [configureNotify]
    split_ifs <;> first | exact Or.inl ⟨rfl, rfl⟩ | exact Or.inr ⟨h2, rfl, rfl⟩
  left
  by_cases h3 : event.type = FocusIn
  · rw [WindowEvent_focusIn w event h3]
    exact ⟨rfl, rfl⟩
  by_cases h4 : event.type = FocusOut
  · rw [WindowEvent_focusOut w event h4]
    exact ⟨rfl, rfl⟩
  by_cases h5 : event.type = ButtonPress
  · rw [WindowEvent_buttonPress w event h5]
    simp only [buttonPress]
    split_ifs <;> exact ⟨rfl, rfl⟩
  by_cases h6 : event.type = ButtonRelease
  · rw [WindowEvent_buttonRelease w event h6]
    simp only [buttonRelease]
    split_ifs <;> exact ⟨rfl, rfl⟩
  by_cases h7 : event.type = MotionNotify
  · rw [WindowEvent_motion w event h7]
    exact ⟨rfl, rfl⟩
  · rw [WindowEvent_default w event h1 h2 h3 h4 h5 h6 h7]
    exact ⟨rfl, rfl⟩

/-- C19, a counterexample: the sample window has the size 800x600; after the
translation of a configure notification that carries the width 0 its width is
0. -/
theorem C19_zero_width_counterexample :
    0 < (sampleWindow []).width ∧ 0 < (sampleWindow []).height
    ∧ (WindowEvent (sampleWindow []) (configureEvent 0 0 0 600)).width = 0
    ∧ ¬ (0 < (WindowEvent (sampleWindow []) (configureEvent 0 0 0 600)).width
          ∧ 0 < (WindowEvent (sampleWindow []) (configureEvent 0 0 0 600)).height) := by
  decide

/-- C19, amended: the translator stores the width and height of a configure
notification as they come. From a window with a positive width and height, the
translation of a native event that is not a configure notification with the
width 0 or the height 0 (after the conversion to `uint`) gives a window with a
positive width and height, and so does the translation of any sequence of such
events. -/
theorem C19_positive_size_amended (w : Window) (hw : 0 < w.width) (hh : 0 < w.height) :
    (∀ event : XEvent,
        (event.type = ConfigureNotify →
          0 < toUint event.xconfigure.width ∧ 0 < toUint event.xconfigure.height) →
        0 < (WindowEvent w event).width ∧ 0 < (WindowEvent w event).height)
    ∧ (∀ es : List XEvent,
        (∀ e ∈ es, e.type = ConfigureNotify →
          0 < toUint e.xconfigure.width ∧ 0 < toUint e.xconfigure.height) →
        0 < (translateAll w es).width ∧ 0 < (translateAll w es).height) := by
  have step : ∀ (v : Window) (event : XEvent), 0 < v.width → 0 < v.height →
      (event.type = ConfigureNotify →
        0 < toUint event.xconfigure.width ∧ 0 < toUint event.xconfigure.height) →
      0 < (WindowEvent v event).width ∧ 0 < (WindowEvent v event).height := by
    intro v event hvw hvh hc
    rcases WindowEvent_size v event with ⟨h1, h2⟩ | ⟨ht, h1, h2⟩
    · rw [h1, h2]
      exact ⟨hvw, hvh⟩
    · rw [h1, h2]
      exact hc ht
  refine ⟨fun event hc => step w event hw hh hc, ?_⟩
  intro es
  induction es generalizing w with
  | nil => intro _; exact ⟨hw, hh⟩
  | cons e es ih =>
    intro hc
    rw [translateAll_cons]
    have h1 := step w e hw hh (hc e (List.mem_cons_self _ _))
    exact ih _ h1.1 h1.2 (fun x hx => hc x (List.mem_cons_of_mem _ hx))

/-- C19, an instance of the amended statement: the resize burst of the scenario
and a motion notification, from the sample window. -/
theorem C19_positive_size_amended_witness :
    0 < (translateAll (sampleWindow []) (resizeBurst ++ [motionEvent 1 2])).width
    ∧ 0 < (translateAll (sampleWindow []) (resizeBurst ++ [motionEvent 1 2])).height :=
  (C19_positive_size_amended (sampleWindow []) (by decide) (by decide)).2
    (resizeBurst ++ [motionEvent 1 2]) (by decide)

end OOGL
